import Mathlib

/-!
# Nanosaur renderer: render-state cache and batched draw submission

A shallow embedding of `src/QD3D/Renderer.c`.

* The program state is a `World`: the static `gState`, the global
  `gRenderStats`, the static function pointer `__glDrawRangeElements`, and
  the log of calls made so far into the graphics backend and into the
  environment-mapping collaborator, oldest first.
* Every C statement is a function `World → World`; a call into the backend
  appends one `Call` to the log.
* The backend itself is `Backend`; `glRun` replays a log on it.
* Each use of the token-pasting helpers (`EnableState(GL_BLEND)` and so on) is
  written in its expanded form, `__EnableState GL_BLEND hasState_GL_BLEND`;
  the `bool*` argument is a `FlagPtr`, the address of one field of `gState`.
* `CHECK_GL_ERROR()` is a diagnostic query and has no effect on the state.
* Pointers into mesh data are addresses (`Nat`); `float` is a binary32 bit
  pattern; counters are unbounded integers; the arguments of the indexed draw
  are converted to the 32-bit types of its parameters.
-/

namespace Nanosaur

/-! ## Data model -/

/-- The `GLenum` constants that `Renderer.c` uses. -/
inductive GLenum
  | GL_TEXTURE_COORD_ARRAY
  | GL_VERTEX_ARRAY
  | GL_COLOR_ARRAY
  | GL_NORMAL_ARRAY
  | GL_CULL_FACE
  | GL_ALPHA_TEST
  | GL_DEPTH_TEST
  | GL_COLOR_MATERIAL
  | GL_TEXTURE_2D
  | GL_BLEND
  | GL_LIGHTING
  | GL_FLOAT
  | GL_TRIANGLES
  | GL_UNSIGNED_SHORT
  deriving DecidableEq, Repr

/-- A C `float`, as its IEEE-754 binary32 bit pattern (the low 32 bits of `bits`). -/
structure GLfloat where
  bits : Nat
  deriving DecidableEq, Repr

namespace GLfloat

/-- Sign bit. -/
def sign (x : GLfloat) : Bool := x.bits / 2 ^ 31 % 2 = 1

/-- Biased exponent and mantissa together: the low 31 bits. -/
def magnitude (x : GLfloat) : Nat := x.bits % 2 ^ 31

/-- A NaN has all exponent bits set and a non-zero mantissa. -/
def isNaN (x : GLfloat) : Bool := decide (2139095040 < x.magnitude)

/-- Position of a non-NaN value in the order of the reals: binary32 is
sign-magnitude, so the magnitude bits order like the absolute values, and the
two zeros coincide. -/
def key (x : GLfloat) : Int := if x.sign then - (x.magnitude : Int) else (x.magnitude : Int)

/-- The C comparison `x < y` on `float`: false as soon as one side is a NaN. -/
def lt (x y : GLfloat) : Bool := !x.isNaN && !y.isNaN && decide (x.key < y.key)

end GLfloat

/-- The literal `1` of `kDefaultRenderMods`, and `1.0f`: `0x3F800000`. -/
def f32_one : GLfloat := ⟨0x3F800000⟩

/-- The literal `0.5f`: `0x3F000000`. -/
def f32_half : GLfloat := ⟨0x3F000000⟩

/-- The literal `.999f`: the binary32 nearest to 0.999, `0x3F7FBE77`. -/
def f32_999 : GLfloat := ⟨0x3F7FBE77⟩

/-- Modelled from the spec: `TQ3ColorRGBA` of `QD3D.h`, four float components. -/
structure TQ3ColorRGBA where
  r : GLfloat
  g : GLfloat
  b : GLfloat
  a : GLfloat
  deriving DecidableEq, Repr

/-- Modelled from the spec: `TQ3Matrix4x4` of `QD3D.h`, a 4×4 matrix of floats
(`value`, here flattened row by row). -/
structure TQ3Matrix4x4 where
  value : List GLfloat
  deriving DecidableEq, Repr

/-- Modelled from the spec: `TQ3TriMeshData` of `QD3D.h`, the mesh primitive:
the fields that `Render_DrawTriMeshList` reads. Array fields are addresses. -/
structure TQ3TriMeshData where
  numTriangles : Int
  triangles : Nat
  numPoints : Int
  points : Nat
  vertexNormals : Nat
  vertexUVs : Nat
  vertexColors : Nat
  diffuseColor : TQ3ColorRGBA
  hasTexture : Bool
  textureHasTransparency : Bool
  glTextureName : Nat
  hasVertexColors : Bool
  deriving DecidableEq, Repr

/-- Modelled from the spec: `RenderModifiers` of `renderer.h`: status bits and
a diffuse colour multiplier. -/
structure RenderModifiers where
  statusBits : Nat
  diffuseColor : TQ3ColorRGBA
  deriving DecidableEq, Repr

/-- Modelled from the spec: `RenderStats` of `renderer.h`: the three counters. -/
structure RenderStats where
  batchedStateChanges : Int
  trianglesDrawn : Int
  meshesDrawn : Int
  deriving DecidableEq, Repr

/-- What `Renderer.c` takes from other translation units: the status-bit masks
of `globals.h` and the address of the array `gEnvMapUVs`. -/
structure Globals where
  STATUS_BIT_REFLECTIONMAP : Nat
  STATUS_BIT_KEEPBACKFACES : Nat
  STATUS_BIT_NULLSHADER : Nat
  gEnvMapUVs : Nat
  deriving DecidableEq, Repr

/-- The cache, `struct RendererState` (Renderer.c:33-48). -/
structure RendererState where
  boundTexture : Nat
  hasClientState_GL_TEXTURE_COORD_ARRAY : Bool
  hasClientState_GL_VERTEX_ARRAY : Bool
  hasClientState_GL_COLOR_ARRAY : Bool
  hasClientState_GL_NORMAL_ARRAY : Bool
  hasState_GL_CULL_FACE : Bool
  hasState_GL_ALPHA_TEST : Bool
  hasState_GL_DEPTH_TEST : Bool
  hasState_GL_COLOR_MATERIAL : Bool
  hasState_GL_TEXTURE_2D : Bool
  hasState_GL_BLEND : Bool
  hasState_GL_LIGHTING : Bool
  deriving DecidableEq, Repr

/-- A `bool*` into `gState`: the address of one of its eleven flags. -/
inductive FlagPtr
  | hasClientState_GL_TEXTURE_COORD_ARRAY
  | hasClientState_GL_VERTEX_ARRAY
  | hasClientState_GL_COLOR_ARRAY
  | hasClientState_GL_NORMAL_ARRAY
  | hasState_GL_CULL_FACE
  | hasState_GL_ALPHA_TEST
  | hasState_GL_DEPTH_TEST
  | hasState_GL_COLOR_MATERIAL
  | hasState_GL_TEXTURE_2D
  | hasState_GL_BLEND
  | hasState_GL_LIGHTING
  deriving DecidableEq, Repr

/-- Read through a flag pointer: `*stateFlagPtr`. -/
def FlagPtr.load (p : FlagPtr) (s : RendererState) : Bool :=
  match p with
  | .hasClientState_GL_TEXTURE_COORD_ARRAY => s.hasClientState_GL_TEXTURE_COORD_ARRAY
  | .hasClientState_GL_VERTEX_ARRAY => s.hasClientState_GL_VERTEX_ARRAY
  | .hasClientState_GL_COLOR_ARRAY => s.hasClientState_GL_COLOR_ARRAY
  | .hasClientState_GL_NORMAL_ARRAY => s.hasClientState_GL_NORMAL_ARRAY
  | .hasState_GL_CULL_FACE => s.hasState_GL_CULL_FACE
  | .hasState_GL_ALPHA_TEST => s.hasState_GL_ALPHA_TEST
  | .hasState_GL_DEPTH_TEST => s.hasState_GL_DEPTH_TEST
  | .hasState_GL_COLOR_MATERIAL => s.hasState_GL_COLOR_MATERIAL
  | .hasState_GL_TEXTURE_2D => s.hasState_GL_TEXTURE_2D
  | .hasState_GL_BLEND => s.hasState_GL_BLEND
  | .hasState_GL_LIGHTING => s.hasState_GL_LIGHTING

/-- Write through a flag pointer: `*stateFlagPtr = v`. -/
def FlagPtr.store (p : FlagPtr) (v : Bool) (s : RendererState) : RendererState :=
  match p with
  | .hasClientState_GL_TEXTURE_COORD_ARRAY => { s with hasClientState_GL_TEXTURE_COORD_ARRAY := v }
  | .hasClientState_GL_VERTEX_ARRAY => { s with hasClientState_GL_VERTEX_ARRAY := v }
  | .hasClientState_GL_COLOR_ARRAY => { s with hasClientState_GL_COLOR_ARRAY := v }
  | .hasClientState_GL_NORMAL_ARRAY => { s with hasClientState_GL_NORMAL_ARRAY := v }
  | .hasState_GL_CULL_FACE => { s with hasState_GL_CULL_FACE := v }
  | .hasState_GL_ALPHA_TEST => { s with hasState_GL_ALPHA_TEST := v }
  | .hasState_GL_DEPTH_TEST => { s with hasState_GL_DEPTH_TEST := v }
  | .hasState_GL_COLOR_MATERIAL => { s with hasState_GL_COLOR_MATERIAL := v }
  | .hasState_GL_TEXTURE_2D => { s with hasState_GL_TEXTURE_2D := v }
  | .hasState_GL_BLEND => { s with hasState_GL_BLEND := v }
  | .hasState_GL_LIGHTING => { s with hasState_GL_LIGHTING := v }

/-- A float product `x * y` passed to the backend, kept as its two operands
(the rounding of the multiplication is not evaluated). -/
structure FloatProduct where
  lhs : GLfloat
  rhs : GLfloat
  deriving DecidableEq, Repr

/-- One call made by `Renderer.c` into the graphics backend or into the
environment-mapping collaborator, with its arguments. The indexed draw goes
through the function pointer `__glDrawRangeElements`, whose value is kept as
`proc`; what a call through a null pointer does is not modelled. The
collaborator `EnvironmentMapTriMesh` lives in another file and makes no call
into the backend's cached state. -/
inductive Call
  | glEnable (cap : GLenum)
  | glDisable (cap : GLenum)
  | glEnableClientState (array : GLenum)
  | glDisableClientState (array : GLenum)
  | glBindTexture (target : GLenum) (texture : Nat)
  | glPushMatrix
  | glMultMatrixf (m : List GLfloat)
  | glPopMatrix
  | glVertexPointer (size : Int) (type : GLenum) (stride : Int) (pointer : Nat)
  | glNormalPointer (type : GLenum) (stride : Int) (pointer : Nat)
  | glTexCoordPointer (size : Int) (type : GLenum) (stride : Int) (pointer : Nat)
  | glColorPointer (size : Int) (type : GLenum) (stride : Int) (pointer : Nat)
  | glColor4f (red green blue alpha : FloatProduct)
  | glDrawRangeElements (proc : Nat) (mode : GLenum) (start stop count : Int)
      (type : GLenum) (indices : Nat)
  | EnvironmentMapTriMesh (mesh : TQ3TriMeshData) (transform : Option TQ3Matrix4x4)
  deriving DecidableEq, Repr

/-- The whole program state seen by `Renderer.c`. -/
structure World where
  gState : RendererState
  gRenderStats : RenderStats
  glDrawRangeElementsProc : Nat
  calls : List Call
  deriving DecidableEq, Repr

/-- Append one call to the log. -/
def World.emit (c : Call) (w : World) : World :=
  { w with calls := w.calls ++ [c] }

/-- The statement `gRenderStats.batchedStateChanges++`. -/
def World.batchedStateChangesIncr (w : World) : World :=
  { w with gRenderStats :=
      { w.gRenderStats with batchedStateChanges := w.gRenderStats.batchedStateChanges + 1 } }

/-- The statement `*stateFlagPtr = v`, the pointer being into `gState`. -/
def World.storeFlag (p : FlagPtr) (v : Bool) (w : World) : World :=
  { w with gState := p.store v w.gState }

/-! ## The constant and the helpers (Renderer.c:54-134) -/

/-- The constant `kDefaultRenderMods` (Renderer.c:54-58). -/
def kDefaultRenderMods : RenderModifiers :=
  { statusBits := 0, diffuseColor := ⟨f32_one, f32_one, f32_one, f32_one⟩ }

/-- The helper `__SetInitialState` (Renderer.c:72-80). -/
def __SetInitialState (stateEnum : GLenum) (stateFlagPtr : FlagPtr) (initialValue : Bool)
    (w : World) : World :=
  let w := w.storeFlag stateFlagPtr initialValue
  if initialValue then w.emit (.glEnable stateEnum) else w.emit (.glDisable stateEnum)

/-- The helper `__SetInitialClientState` (Renderer.c:82-90). -/
def __SetInitialClientState (stateEnum : GLenum) (stateFlagPtr : FlagPtr) (initialValue : Bool)
    (w : World) : World :=
  let w := w.storeFlag stateFlagPtr initialValue
  if initialValue then w.emit (.glEnableClientState stateEnum)
  else w.emit (.glDisableClientState stateEnum)

/-- The helper `__EnableState` (Renderer.c:92-101). -/
def __EnableState (stateEnum : GLenum) (stateFlagPtr : FlagPtr) (w : World) : World :=
  if !stateFlagPtr.load w.gState then
    (w.emit (.glEnable stateEnum)).storeFlag stateFlagPtr true
  else
    w.batchedStateChangesIncr

/-- The helper `__EnableClientState` (Renderer.c:103-112). -/
def __EnableClientState (stateEnum : GLenum) (stateFlagPtr : FlagPtr) (w : World) : World :=
  if !stateFlagPtr.load w.gState then
    (w.emit (.glEnableClientState stateEnum)).storeFlag stateFlagPtr true
  else
    w.batchedStateChangesIncr

/-- The helper `__DisableState` (Renderer.c:114-123). -/
def __DisableState (stateEnum : GLenum) (stateFlagPtr : FlagPtr) (w : World) : World :=
  if stateFlagPtr.load w.gState then
    (w.emit (.glDisable stateEnum)).storeFlag stateFlagPtr false
  else
    w.batchedStateChangesIncr

/-- The helper `__DisableClientState` (Renderer.c:125-134). -/
def __DisableClientState (stateEnum : GLenum) (stateFlagPtr : FlagPtr) (w : World) : World :=
  if stateFlagPtr.load w.gState then
    (w.emit (.glDisableClientState stateEnum)).storeFlag stateFlagPtr false
  else
    w.batchedStateChangesIncr

/-- The texture bind written inline in `Render_DrawTriMeshList`
(Renderer.c:245-251), for the texture name `texture`. -/
def bindTexture (texture : Nat) (w : World) : World :=
  if w.gState.boundTexture != texture then
    let w := w.emit (.glBindTexture .GL_TEXTURE_2D texture)
    { w with gState := { w.gState with boundTexture := texture } }
  else
    w.batchedStateChangesIncr

/-! ## API implementation (Renderer.c:153-291) -/

/-- The function `Render_GetGLProcAddresses` (Renderer.c:153-157). `procAddress` is what
`SDL_GL_GetProcAddress("glDrawRangeElements")` returns, `0` for a null
pointer. `GAME_ASSERT`, a macro of `misc.h`, stops the program on a null
pointer, as the specification has it for a missing entry point: the result is
`none`. -/
def Render_GetGLProcAddresses (procAddress : Nat) (w : World) : Option World :=
  let w := { w with glDrawRangeElementsProc := procAddress }
  if w.glDrawRangeElementsProc != 0 then some w else none

/-- The function `Render_InitState` (Renderer.c:159-178). -/
def Render_InitState (procAddress : Nat) (w : World) : Option World :=
  (Render_GetGLProcAddresses procAddress w).map fun w =>
    let w := __SetInitialClientState .GL_VERTEX_ARRAY .hasClientState_GL_VERTEX_ARRAY true w
    let w := __SetInitialClientState .GL_NORMAL_ARRAY .hasClientState_GL_NORMAL_ARRAY true w
    let w := __SetInitialClientState .GL_COLOR_ARRAY .hasClientState_GL_COLOR_ARRAY false w
    let w := __SetInitialClientState .GL_TEXTURE_COORD_ARRAY
      .hasClientState_GL_TEXTURE_COORD_ARRAY true w
    let w := __SetInitialState .GL_CULL_FACE .hasState_GL_CULL_FACE true w
    let w := __SetInitialState .GL_ALPHA_TEST .hasState_GL_ALPHA_TEST true w
    let w := __SetInitialState .GL_DEPTH_TEST .hasState_GL_DEPTH_TEST true w
    let w := __SetInitialState .GL_COLOR_MATERIAL .hasState_GL_COLOR_MATERIAL true w
    let w := __SetInitialState .GL_TEXTURE_2D .hasState_GL_TEXTURE_2D false w
    let w := __SetInitialState .GL_BLEND .hasState_GL_BLEND false w
    let w := __SetInitialState .GL_LIGHTING .hasState_GL_LIGHTING true w
    { w with gState := { w.gState with boundTexture := 0 } }

/-- The test `mods->statusBits & mask` used as a condition. -/
def statusBit (mods : RenderModifiers) (mask : Nat) : Bool :=
  mods.statusBits &&& mask != 0

/-- The condition of Renderer.c:208. -/
def needsBlending (mods : RenderModifiers) (mesh : TQ3TriMeshData) : Bool :=
  mesh.textureHasTransparency || mesh.diffuseColor.a.lt f32_999 || mods.diffuseColor.a.lt f32_999

/-- The environment-mapping call of the loop body (Renderer.c:203-206). -/
def environmentMapStep (transform : Option TQ3Matrix4x4) (envMap : Bool)
    (mesh : TQ3TriMeshData) (w : World) : World :=
  if envMap then w.emit (.EnvironmentMapTriMesh mesh transform) else w

/-- The blend/alpha-test block of the loop body (Renderer.c:208-217). -/
def blendDecision (mods : RenderModifiers) (mesh : TQ3TriMeshData) (w : World) : World :=
  if needsBlending mods mesh then
    w |> __EnableState .GL_BLEND .hasState_GL_BLEND
      |> __DisableState .GL_ALPHA_TEST .hasState_GL_ALPHA_TEST
  else
    w |> __DisableState .GL_BLEND .hasState_GL_BLEND
      |> __EnableState .GL_ALPHA_TEST .hasState_GL_ALPHA_TEST

/-- The culling block of the loop body (Renderer.c:219-226). -/
def cullingDecision (X : Globals) (mods : RenderModifiers) (w : World) : World :=
  if statusBit mods X.STATUS_BIT_KEEPBACKFACES then
    __DisableState .GL_CULL_FACE .hasState_GL_CULL_FACE w
  else
    __EnableState .GL_CULL_FACE .hasState_GL_CULL_FACE w

/-- The lighting block of the loop body (Renderer.c:228-235). -/
def lightingDecision (X : Globals) (mods : RenderModifiers) (w : World) : World :=
  if statusBit mods X.STATUS_BIT_NULLSHADER then
    __DisableState .GL_LIGHTING .hasState_GL_LIGHTING w
  else
    __EnableState .GL_LIGHTING .hasState_GL_LIGHTING w

/-- The position and normal pointers (Renderer.c:237-238). -/
def vertexPointers (mesh : TQ3TriMeshData) (w : World) : World :=
  (w.emit (.glVertexPointer 3 .GL_FLOAT 0 mesh.points)).emit
    (.glNormalPointer .GL_FLOAT 0 mesh.vertexNormals)

/-- The texture block of the loop body (Renderer.c:241-261). -/
def textureDecision (X : Globals) (envMap : Bool) (mesh : TQ3TriMeshData) (w : World) : World :=
  if mesh.hasTexture then
    w |> __EnableState .GL_TEXTURE_2D .hasState_GL_TEXTURE_2D
      |> __EnableClientState .GL_TEXTURE_COORD_ARRAY .hasClientState_GL_TEXTURE_COORD_ARRAY
      |> bindTexture mesh.glTextureName
      |> World.emit (.glTexCoordPointer 2 .GL_FLOAT 0
          (if envMap then X.gEnvMapUVs else mesh.vertexUVs))
  else
    w |> __DisableState .GL_TEXTURE_2D .hasState_GL_TEXTURE_2D
      |> __DisableClientState .GL_TEXTURE_COORD_ARRAY .hasClientState_GL_TEXTURE_COORD_ARRAY

/-- The vertex-colour block of the loop body (Renderer.c:263-271). -/
def vertexColorDecision (mesh : TQ3TriMeshData) (w : World) : World :=
  if mesh.hasVertexColors then
    w |> __EnableClientState .GL_COLOR_ARRAY .hasClientState_GL_COLOR_ARRAY
      |> World.emit (.glColorPointer 4 .GL_FLOAT 0 mesh.vertexColors)
  else
    __DisableClientState .GL_COLOR_ARRAY .hasClientState_GL_COLOR_ARRAY w

/-- The uniform draw colour (Renderer.c:273-278). -/
def drawColor (mods : RenderModifiers) (mesh : TQ3TriMeshData) (w : World) : World :=
  w.emit (.glColor4f
    ⟨mesh.diffuseColor.r, mods.diffuseColor.r⟩
    ⟨mesh.diffuseColor.g, mods.diffuseColor.g⟩
    ⟨mesh.diffuseColor.b, mods.diffuseColor.b⟩
    ⟨mesh.diffuseColor.a, mods.diffuseColor.a⟩)

/-- One iteration of the loop of `Render_DrawTriMeshList`, up to and including
`glColor4f` (Renderer.c:201-278): everything before the draw is issued. -/
def meshSetup (X : Globals) (transform : Option TQ3Matrix4x4) (mods : RenderModifiers)
    (envMap : Bool) (mesh : TQ3TriMeshData) (w : World) : World :=
  let w := environmentMapStep transform envMap mesh w
  let w := blendDecision mods mesh w
  let w := cullingDecision X mods w
  let w := lightingDecision X mods w
  let w := vertexPointers mesh w
  let w := textureDecision X envMap mesh w
  let w := vertexColorDecision mesh w
  drawColor mods mesh w

/-- Conversion to `GLuint`, a 32-bit unsigned integer: the value modulo `2 ^ 32`. -/
def toGLuint (x : Int) : Int := x % 2 ^ 32

/-- An integer as a 32-bit `int` or `GLsizei`: the value from `-2 ^ 31` to
`2 ^ 31 - 1` that is congruent to it modulo `2 ^ 32`. A value in that range
is kept; for one outside it, where the C arithmetic overflows, this is the
usual two's-complement result. -/
def toGLsizei (x : Int) : Int := (x + 2 ^ 31) % 2 ^ 32 - 2 ^ 31

/-- The draw command of one mesh (Renderer.c:280), issued through the pointer
`proc`. The parameters of `glDrawRangeElements` are `GLuint start`,
`GLuint end`, `GLsizei count`: `mesh->numPoints-1` is converted to `GLuint`
and `mesh->numTriangles*3` is a 32-bit `GLsizei`. -/
def drawCall (proc : Nat) (mesh : TQ3TriMeshData) : Call :=
  .glDrawRangeElements proc .GL_TRIANGLES 0 (toGLuint (mesh.numPoints - 1))
    (toGLsizei (mesh.numTriangles * 3)) .GL_UNSIGNED_SHORT mesh.triangles

/-- The rest of the iteration (Renderer.c:280-284): the draw and the two counters. -/
def meshSubmit (mesh : TQ3TriMeshData) (w : World) : World :=
  let w := w.emit (drawCall w.glDrawRangeElementsProc mesh)
  { w with gRenderStats :=
      { w.gRenderStats with
        trianglesDrawn := w.gRenderStats.trianglesDrawn + mesh.numTriangles
        meshesDrawn := w.gRenderStats.meshesDrawn + 1 } }

/-- The loop `for (i = 0; i < numMeshes; i++)` (Renderer.c:199-285) over the
entries `meshList[0 .. numMeshes-1]`, given as a list. -/
def meshLoop (X : Globals) (transform : Option TQ3Matrix4x4) (mods : RenderModifiers)
    (envMap : Bool) : List TQ3TriMeshData → World → World
  | [], w => w
  | mesh :: rest, w =>
    meshLoop X transform mods envMap rest (meshSubmit mesh (meshSetup X transform mods envMap mesh w))

/-- The modifiers in force (Renderer.c:186-189): the default ones for a null `mods`. -/
def modsOrDefault : Option RenderModifiers → RenderModifiers
  | none => kDefaultRenderMods
  | some m => m

/-- The transform is pushed, if there is one (Renderer.c:193-197). -/
def pushTransform (transform : Option TQ3Matrix4x4) (w : World) : World :=
  match transform with
  | some t => (w.emit .glPushMatrix).emit (.glMultMatrixf t.value)
  | none => w

/-- The transform is popped, if there is one (Renderer.c:287-290). -/
def popTransform (transform : Option TQ3Matrix4x4) (w : World) : World :=
  match transform with
  | some _ => w.emit .glPopMatrix
  | none => w

/-- The function `Render_DrawTriMeshList` (Renderer.c:180-291). The pair `numMeshes`,
`meshList` is the list of the `numMeshes` meshes pointed to; a null
`transform` or `mods` is `none`. -/
def Render_DrawTriMeshList (X : Globals) (meshList : List TQ3TriMeshData)
    (transform : Option TQ3Matrix4x4) (mods : Option RenderModifiers) (w : World) : World :=
  let mods := modsOrDefault mods
  let envMap := statusBit mods X.STATUS_BIT_REFLECTIONMAP
  let w := pushTransform transform w
  let w := meshLoop X transform mods envMap meshList w
  popTransform transform w

/-- The world inside `Render_DrawTriMeshList`, called on a list that starts
with the meshes `done`, when the loop has finished these. -/
def worldAfterMeshes (X : Globals) (done : List TQ3TriMeshData)
    (transform : Option TQ3Matrix4x4) (mods : Option RenderModifiers) (w : World) : World :=
  meshLoop X transform (modsOrDefault mods)
    (statusBit (modsOrDefault mods) X.STATUS_BIT_REFLECTIONMAP) done (pushTransform transform w)

/-- The world inside `Render_DrawTriMeshList`, called on a list that starts
with the meshes `done` followed by `mesh`, at the moment the draw command of
`mesh` is issued: `done` has been looped over and the body has run for `mesh`
up to line 278. -/
def worldAtDraw (X : Globals) (done : List TQ3TriMeshData) (mesh : TQ3TriMeshData)
    (transform : Option TQ3Matrix4x4) (mods : Option RenderModifiers) (w : World) : World :=
  meshSetup X transform (modsOrDefault mods)
    (statusBit (modsOrDefault mods) X.STATUS_BIT_REFLECTIONMAP) mesh
    (worldAfterMeshes X done transform mods w)

/-- The world inside `Render_DrawTriMeshList`, called on a list that starts
with the meshes `done` followed by a textured `mesh`, at the moment the
iteration for `mesh` reaches the test of line 245: the body has run up to
line 244. -/
def worldAtBind (X : Globals) (done : List TQ3TriMeshData) (mesh : TQ3TriMeshData)
    (transform : Option TQ3Matrix4x4) (mods : Option RenderModifiers) (w : World) : World :=
  worldAfterMeshes X done transform mods w
    |> environmentMapStep transform
        (statusBit (modsOrDefault mods) X.STATUS_BIT_REFLECTIONMAP) mesh
    |> blendDecision (modsOrDefault mods) mesh
    |> cullingDecision X (modsOrDefault mods)
    |> lightingDecision X (modsOrDefault mods)
    |> vertexPointers mesh
    |> __EnableState .GL_TEXTURE_2D .hasState_GL_TEXTURE_2D
    |> __EnableClientState .GL_TEXTURE_COORD_ARRAY .hasClientState_GL_TEXTURE_COORD_ARRAY

/-! ## The graphics backend -/

/-- The part of the backend's state that the calls of `Renderer.c` act on:
the server-side capabilities, the client-side arrays, the texture bound to
each target, and the depth of the current matrix stack. -/
structure Backend where
  enabled : GLenum → Bool
  clientEnabled : GLenum → Bool
  textureBinding : GLenum → Nat
  matrixDepth : Nat

/-- Effect of one call on the backend. -/
def Backend.apply (b : Backend) : Call → Backend
  | .glEnable cap => { b with enabled := fun c => if c = cap then true else b.enabled c }
  | .glDisable cap => { b with enabled := fun c => if c = cap then false else b.enabled c }
  | .glEnableClientState a =>
    { b with clientEnabled := fun c => if c = a then true else b.clientEnabled c }
  | .glDisableClientState a =>
    { b with clientEnabled := fun c => if c = a then false else b.clientEnabled c }
  | .glBindTexture target texture =>
    { b with textureBinding := fun t => if t = target then texture else b.textureBinding t }
  | .glPushMatrix => { b with matrixDepth := b.matrixDepth + 1 }
  | .glPopMatrix => { b with matrixDepth := b.matrixDepth - 1 }
  | _ => b

/-- The backend after a log of calls, oldest first. -/
def glRun (b : Backend) (calls : List Call) : Backend :=
  calls.foldl Backend.apply b

/-- The cache mirrors the backend: each of the eleven cached flags and the
cached texture name equals the backend's value. -/
def Mirrors (s : RendererState) (b : Backend) : Prop :=
  s.hasClientState_GL_TEXTURE_COORD_ARRAY = b.clientEnabled .GL_TEXTURE_COORD_ARRAY ∧
  s.hasClientState_GL_VERTEX_ARRAY = b.clientEnabled .GL_VERTEX_ARRAY ∧
  s.hasClientState_GL_COLOR_ARRAY = b.clientEnabled .GL_COLOR_ARRAY ∧
  s.hasClientState_GL_NORMAL_ARRAY = b.clientEnabled .GL_NORMAL_ARRAY ∧
  s.hasState_GL_CULL_FACE = b.enabled .GL_CULL_FACE ∧
  s.hasState_GL_ALPHA_TEST = b.enabled .GL_ALPHA_TEST ∧
  s.hasState_GL_DEPTH_TEST = b.enabled .GL_DEPTH_TEST ∧
  s.hasState_GL_COLOR_MATERIAL = b.enabled .GL_COLOR_MATERIAL ∧
  s.hasState_GL_TEXTURE_2D = b.enabled .GL_TEXTURE_2D ∧
  s.hasState_GL_BLEND = b.enabled .GL_BLEND ∧
  s.hasState_GL_LIGHTING = b.enabled .GL_LIGHTING ∧
  s.boundTexture = b.textureBinding .GL_TEXTURE_2D

instance (s : RendererState) (b : Backend) : Decidable (Mirrors s b) := by
  unfold Mirrors; infer_instance

/-- The capability that the flag behind a pointer caches: the `stateEnum`
pasted next to it in `EnableState`, `EnableClientState` and the rest. -/
def FlagPtr.cap : FlagPtr → GLenum
  | .hasClientState_GL_TEXTURE_COORD_ARRAY => .GL_TEXTURE_COORD_ARRAY
  | .hasClientState_GL_VERTEX_ARRAY => .GL_VERTEX_ARRAY
  | .hasClientState_GL_COLOR_ARRAY => .GL_COLOR_ARRAY
  | .hasClientState_GL_NORMAL_ARRAY => .GL_NORMAL_ARRAY
  | .hasState_GL_CULL_FACE => .GL_CULL_FACE
  | .hasState_GL_ALPHA_TEST => .GL_ALPHA_TEST
  | .hasState_GL_DEPTH_TEST => .GL_DEPTH_TEST
  | .hasState_GL_COLOR_MATERIAL => .GL_COLOR_MATERIAL
  | .hasState_GL_TEXTURE_2D => .GL_TEXTURE_2D
  | .hasState_GL_BLEND => .GL_BLEND
  | .hasState_GL_LIGHTING => .GL_LIGHTING

/-- Whether the flag is one of the four `hasClientState_` fields. -/
def FlagPtr.isClient : FlagPtr → Bool
  | .hasClientState_GL_TEXTURE_COORD_ARRAY => true
  | .hasClientState_GL_VERTEX_ARRAY => true
  | .hasClientState_GL_COLOR_ARRAY => true
  | .hasClientState_GL_NORMAL_ARRAY => true
  | _ => false

/-- The backend's value of the capability that a flag caches. -/
def FlagPtr.backend (p : FlagPtr) (b : Backend) : Bool :=
  if p.isClient then b.clientEnabled p.cap else b.enabled p.cap

/-- The calls that change a cached piece of backend state: the four
enable/disable commands and the texture bind. -/
def Call.isStateChange : Call → Bool
  | .glEnable _ => true
  | .glDisable _ => true
  | .glEnableClientState _ => true
  | .glDisableClientState _ => true
  | .glBindTexture _ _ => true
  | _ => false

/-- The cache of `w` mirrors the backend that started as `b0` when the log of
`w` was empty and has received every call of the log since. -/
def Consistent (b0 : Backend) (w : World) : Prop :=
  Mirrors w.gState (glRun b0 w.calls)

/-! ## Statements about a single ensure call and about sequences of them -/

/-- What one ensure call on the flag behind `p` does, taking `w` to `w'`, when it
requests the value `target` and its backend command is `cmd`: if the cached
flag already has the value, no call is logged and `batchedStateChanges` grows
by one; otherwise exactly `cmd` is logged, the cached flag takes the value and
`batchedStateChanges` stays. Either way the other flags, the bound texture,
the two draw counters and the function pointer stay. -/
def EnsureStep (cmd : Call) (target : Bool) (p : FlagPtr) (w w' : World) : Prop :=
  (if p.load w.gState = target then
      w'.calls = w.calls ∧
      w'.gRenderStats.batchedStateChanges = w.gRenderStats.batchedStateChanges + 1 ∧
      p.load w'.gState = target
    else
      w'.calls = w.calls ++ [cmd] ∧
      w'.gRenderStats.batchedStateChanges = w.gRenderStats.batchedStateChanges ∧
      p.load w'.gState = target) ∧
  (∀ q : FlagPtr, q ≠ p → q.load w'.gState = q.load w.gState) ∧
  w'.gState.boundTexture = w.gState.boundTexture ∧
  w'.gRenderStats.trianglesDrawn = w.gRenderStats.trianglesDrawn ∧
  w'.gRenderStats.meshesDrawn = w.gRenderStats.meshesDrawn ∧
  w'.glDrawRangeElementsProc = w.glDrawRangeElementsProc

/-- What the inline texture bind does for the name `texture`, taking `w` to
`w'`: the same pattern, keyed on `gState.boundTexture`. -/
def BindStep (texture : Nat) (w w' : World) : Prop :=
  (if w.gState.boundTexture = texture then
      w'.calls = w.calls ∧
      w'.gRenderStats.batchedStateChanges = w.gRenderStats.batchedStateChanges + 1 ∧
      w'.gState.boundTexture = texture
    else
      w'.calls = w.calls ++ [.glBindTexture .GL_TEXTURE_2D texture] ∧
      w'.gRenderStats.batchedStateChanges = w.gRenderStats.batchedStateChanges ∧
      w'.gState.boundTexture = texture) ∧
  (∀ q : FlagPtr, q.load w'.gState = q.load w.gState) ∧
  w'.gRenderStats.trianglesDrawn = w.gRenderStats.trianglesDrawn ∧
  w'.gRenderStats.meshesDrawn = w.gRenderStats.meshesDrawn ∧
  w'.glDrawRangeElementsProc = w.glDrawRangeElementsProc

/-- One call of an ensure operation: the four helpers, with their two
arguments, and the texture bind. -/
inductive EnsureCall
  | enableState (stateEnum : GLenum) (stateFlagPtr : FlagPtr)
  | enableClientState (stateEnum : GLenum) (stateFlagPtr : FlagPtr)
  | disableState (stateEnum : GLenum) (stateFlagPtr : FlagPtr)
  | disableClientState (stateEnum : GLenum) (stateFlagPtr : FlagPtr)
  | bindTexture (texture : Nat)
  deriving DecidableEq, Repr

/-- Run one ensure call. -/
def EnsureCall.run : EnsureCall → World → World
  | .enableState e p => __EnableState e p
  | .enableClientState e p => __EnableClientState e p
  | .disableState e p => __DisableState e p
  | .disableClientState e p => __DisableClientState e p
  | .bindTexture t => Nanosaur.bindTexture t

/-- Run a sequence of ensure calls, first to last. -/
def runEnsureCalls (cs : List EnsureCall) (w : World) : World :=
  cs.foldl (fun w c => c.run w) w

/-- The value that a call requests for the flag behind `p`: `true` for an
enable naming it, `false` for a disable naming it, nothing otherwise. -/
def EnsureCall.flagRequest (p : FlagPtr) : EnsureCall → Option Bool
  | .enableState _ q => if q = p then some true else none
  | .enableClientState _ q => if q = p then some true else none
  | .disableState _ q => if q = p then some false else none
  | .disableClientState _ q => if q = p then some false else none
  | .bindTexture _ => none

/-- The texture name that a call requests, for a bind. -/
def EnsureCall.bindRequest : EnsureCall → Option Nat
  | .bindTexture t => some t
  | _ => none

/-- The request of the last call in the sequence that names the flag behind `p`. -/
def lastFlagRequest (p : FlagPtr) (cs : List EnsureCall) : Option Bool :=
  (cs.filterMap (EnsureCall.flagRequest p)).getLast?

/-- The texture name of the last bind in the sequence. -/
def lastBindRequest (cs : List EnsureCall) : Option Nat :=
  (cs.filterMap EnsureCall.bindRequest).getLast?

/-- The eleven commands that the claimed defaults call for, in the order of
`Render_InitState`. -/
def initCalls : List Call :=
  [ .glEnableClientState .GL_VERTEX_ARRAY,
    .glEnableClientState .GL_NORMAL_ARRAY,
    .glDisableClientState .GL_COLOR_ARRAY,
    .glEnableClientState .GL_TEXTURE_COORD_ARRAY,
    .glEnable .GL_CULL_FACE,
    .glEnable .GL_ALPHA_TEST,
    .glEnable .GL_DEPTH_TEST,
    .glEnable .GL_COLOR_MATERIAL,
    .glDisable .GL_TEXTURE_2D,
    .glDisable .GL_BLEND,
    .glEnable .GL_LIGHTING ]

/-- The default cache: the claimed default of each flag, and no texture. -/
def initState : RendererState :=
  { boundTexture := 0
    hasClientState_GL_VERTEX_ARRAY := true
    hasClientState_GL_NORMAL_ARRAY := true
    hasClientState_GL_COLOR_ARRAY := false
    hasClientState_GL_TEXTURE_COORD_ARRAY := true
    hasState_GL_CULL_FACE := true
    hasState_GL_ALPHA_TEST := true
    hasState_GL_DEPTH_TEST := true
    hasState_GL_COLOR_MATERIAL := true
    hasState_GL_TEXTURE_2D := false
    hasState_GL_BLEND := false
    hasState_GL_LIGHTING := true }

/-- The cache after the setup of one mesh, from the cache `s` before it: the
flags decided by the mesh and the modifiers are overwritten, the others kept. -/
def setupState (X : Globals) (mods : RenderModifiers) (mesh : TQ3TriMeshData)
    (s : RendererState) : RendererState :=
  { boundTexture := if mesh.hasTexture then mesh.glTextureName else s.boundTexture
    hasClientState_GL_TEXTURE_COORD_ARRAY := mesh.hasTexture
    hasClientState_GL_VERTEX_ARRAY := s.hasClientState_GL_VERTEX_ARRAY
    hasClientState_GL_COLOR_ARRAY := mesh.hasVertexColors
    hasClientState_GL_NORMAL_ARRAY := s.hasClientState_GL_NORMAL_ARRAY
    hasState_GL_CULL_FACE := !statusBit mods X.STATUS_BIT_KEEPBACKFACES
    hasState_GL_ALPHA_TEST := !needsBlending mods mesh
    hasState_GL_DEPTH_TEST := s.hasState_GL_DEPTH_TEST
    hasState_GL_COLOR_MATERIAL := s.hasState_GL_COLOR_MATERIAL
    hasState_GL_TEXTURE_2D := mesh.hasTexture
    hasState_GL_BLEND := needsBlending mods mesh
    hasState_GL_LIGHTING := !statusBit mods X.STATUS_BIT_NULLSHADER }

/-! ## The log of one call, as a function of the cache at its start -/

/-- The calls logged by an ensure helper of a server-side capability `e` that
requests `target` when the cache holds `cur`. -/
def stateCalls (e : GLenum) (target cur : Bool) : List Call :=
  if cur = target then [] else [if target then .glEnable e else .glDisable e]

/-- The calls logged by an ensure helper of a client-side array `e` that
requests `target` when the cache holds `cur`. -/
def clientStateCalls (e : GLenum) (target cur : Bool) : List Call :=
  if cur = target then [] else
    [if target then .glEnableClientState e else .glDisableClientState e]

/-- The calls logged by the inline bind of `texture` when the cache holds `cur`. -/
def bindCalls (texture cur : Nat) : List Call :=
  if cur = texture then [] else [.glBindTexture .GL_TEXTURE_2D texture]

/-- The calls logged by the setup of one mesh (Renderer.c:201-278) when the
cache is `s` at its start. -/
def setupCalls (X : Globals) (transform : Option TQ3Matrix4x4) (mods : RenderModifiers)
    (envMap : Bool) (mesh : TQ3TriMeshData) (s : RendererState) : List Call :=
  (if envMap then [.EnvironmentMapTriMesh mesh transform] else []) ++
  stateCalls .GL_BLEND (needsBlending mods mesh) s.hasState_GL_BLEND ++
  stateCalls .GL_ALPHA_TEST (!needsBlending mods mesh) s.hasState_GL_ALPHA_TEST ++
  stateCalls .GL_CULL_FACE (!statusBit mods X.STATUS_BIT_KEEPBACKFACES) s.hasState_GL_CULL_FACE ++
  stateCalls .GL_LIGHTING (!statusBit mods X.STATUS_BIT_NULLSHADER) s.hasState_GL_LIGHTING ++
  [.glVertexPointer 3 .GL_FLOAT 0 mesh.points,
    .glNormalPointer .GL_FLOAT 0 mesh.vertexNormals] ++
  stateCalls .GL_TEXTURE_2D mesh.hasTexture s.hasState_GL_TEXTURE_2D ++
  clientStateCalls .GL_TEXTURE_COORD_ARRAY mesh.hasTexture
    s.hasClientState_GL_TEXTURE_COORD_ARRAY ++
  (if mesh.hasTexture then
    bindCalls mesh.glTextureName s.boundTexture ++
    [.glTexCoordPointer 2 .GL_FLOAT 0 (if envMap then X.gEnvMapUVs else mesh.vertexUVs)]
   else []) ++
  clientStateCalls .GL_COLOR_ARRAY mesh.hasVertexColors s.hasClientState_GL_COLOR_ARRAY ++
  (if mesh.hasVertexColors then [.glColorPointer 4 .GL_FLOAT 0 mesh.vertexColors] else []) ++
  [.glColor4f
    ⟨mesh.diffuseColor.r, mods.diffuseColor.r⟩
    ⟨mesh.diffuseColor.g, mods.diffuseColor.g⟩
    ⟨mesh.diffuseColor.b, mods.diffuseColor.b⟩
    ⟨mesh.diffuseColor.a, mods.diffuseColor.a⟩]

/-- The calls logged by the loop over `meshes` when the cache is `s` at its
start and the draw goes through `proc`. -/
def loopCalls (X : Globals) (transform : Option TQ3Matrix4x4) (mods : RenderModifiers)
    (envMap : Bool) (proc : Nat) : List TQ3TriMeshData → RendererState → List Call
  | [], _ => []
  | mesh :: rest, s =>
    setupCalls X transform mods envMap mesh s ++ [drawCall proc mesh] ++
      loopCalls X transform mods envMap proc rest (setupState X mods mesh s)

/-- The cache after the loop over `meshes` when it is `s` at its start. -/
def loopState (X : Globals) (mods : RenderModifiers) :
    List TQ3TriMeshData → RendererState → RendererState
  | [], s => s
  | mesh :: rest, s => loopState X mods rest (setupState X mods mesh s)

/-- A texture bind. -/
def Call.isBind : Call → Bool
  | .glBindTexture _ _ => true
  | _ => false

/-- An indexed draw. -/
def Call.isDraw : Call → Bool
  | .glDrawRangeElements _ _ _ _ _ _ _ => true
  | _ => false

/-- A call on the matrix stack: push, multiply or pop. -/
def Call.isMatrixCall : Call → Bool
  | .glPushMatrix => true
  | .glMultMatrixf _ => true
  | .glPopMatrix => true
  | _ => false

/-- From `w` to `w'` the two draw counters and the function pointer are kept. -/
def KeepsDrawCounters (w w' : World) : Prop :=
  w'.gRenderStats.trianglesDrawn = w.gRenderStats.trianglesDrawn ∧
  w'.gRenderStats.meshesDrawn = w.gRenderStats.meshesDrawn ∧
  w'.glDrawRangeElementsProc = w.glDrawRangeElementsProc

/-- A call to the environment-mapping collaborator. -/
def Call.isEnvMap : Call → Bool
  | .EnvironmentMapTriMesh _ _ => true
  | _ => false

/-- The shapes of call that the setup of a mesh can log: the toggles of the
five capabilities and two arrays that the loop decides, a bind on
`GL_TEXTURE_2D`, the pointer and colour calls, and the environment-mapping
call. -/
def Call.isSetupCall : Call → Bool
  | .glEnable e => e = .GL_BLEND || e = .GL_ALPHA_TEST || e = .GL_CULL_FACE
      || e = .GL_LIGHTING || e = .GL_TEXTURE_2D
  | .glDisable e => e = .GL_BLEND || e = .GL_ALPHA_TEST || e = .GL_CULL_FACE
      || e = .GL_LIGHTING || e = .GL_TEXTURE_2D
  | .glEnableClientState e => e = .GL_TEXTURE_COORD_ARRAY || e = .GL_COLOR_ARRAY
  | .glDisableClientState e => e = .GL_TEXTURE_COORD_ARRAY || e = .GL_COLOR_ARRAY
  | .glBindTexture target _ => target = .GL_TEXTURE_2D
  | .glVertexPointer _ _ _ _ => true
  | .glNormalPointer _ _ _ => true
  | .glTexCoordPointer _ _ _ _ => true
  | .glColorPointer _ _ _ _ => true
  | .glColor4f _ _ _ _ => true
  | .EnvironmentMapTriMesh _ _ => true
  | _ => false

/-- An enable or disable command, of either kind, for one of `GL_VERTEX_ARRAY`,
`GL_NORMAL_ARRAY`, `GL_DEPTH_TEST`, `GL_COLOR_MATERIAL`. -/
def Call.togglesFixedFlag : Call → Bool
  | .glEnable e => e = .GL_VERTEX_ARRAY || e = .GL_NORMAL_ARRAY || e = .GL_DEPTH_TEST
      || e = .GL_COLOR_MATERIAL
  | .glDisable e => e = .GL_VERTEX_ARRAY || e = .GL_NORMAL_ARRAY || e = .GL_DEPTH_TEST
      || e = .GL_COLOR_MATERIAL
  | .glEnableClientState e => e = .GL_VERTEX_ARRAY || e = .GL_NORMAL_ARRAY
      || e = .GL_DEPTH_TEST || e = .GL_COLOR_MATERIAL
  | .glDisableClientState e => e = .GL_VERTEX_ARRAY || e = .GL_NORMAL_ARRAY
      || e = .GL_DEPTH_TEST || e = .GL_COLOR_MATERIAL
  | _ => false

/-- The worlds that the program can be in between calls: what `Render_InitState`
returns, from any world and with any entry point, and what
`Render_DrawTriMeshList` makes of such a world, with any arguments. -/
inductive Reachable (X : Globals) : World → Prop
  | init (procAddress : Nat) (w0 w : World) :
      Render_InitState procAddress w0 = some w → Reachable X w
  | draw (w : World) (meshList : List TQ3TriMeshData) (transform : Option TQ3Matrix4x4)
      (mods : Option RenderModifiers) :
      Reachable X w → Reachable X (Render_DrawTriMeshList X meshList transform mods w)

/-- A call that hands geometry to the backend: the position pointer, the
normal pointer, or the indexed draw. -/
def Call.isGeometryCall : Call → Bool
  | .glVertexPointer _ _ _ _ => true
  | .glNormalPointer _ _ _ => true
  | .glDrawRangeElements _ _ _ _ _ _ _ => true
  | _ => false

/-- What one ensure helper that requests `target` adds to
`batchedStateChanges` when the cache holds `cur`. -/
def avoided (target cur : Bool) : Int :=
  if cur = target then 1 else 0

/-- What the setup of one mesh adds to `batchedStateChanges` when the cache is
`s` at its start: one for each of its seven ensure calls that finds the flag
as requested, and one for the bind of a textured mesh that finds the texture
name cached. -/
def setupAvoided (X : Globals) (mods : RenderModifiers) (mesh : TQ3TriMeshData)
    (s : RendererState) : Int :=
  avoided (needsBlending mods mesh) s.hasState_GL_BLEND +
  avoided (!needsBlending mods mesh) s.hasState_GL_ALPHA_TEST +
  avoided (!statusBit mods X.STATUS_BIT_KEEPBACKFACES) s.hasState_GL_CULL_FACE +
  avoided (!statusBit mods X.STATUS_BIT_NULLSHADER) s.hasState_GL_LIGHTING +
  avoided mesh.hasTexture s.hasState_GL_TEXTURE_2D +
  avoided mesh.hasTexture s.hasClientState_GL_TEXTURE_COORD_ARRAY +
  (if mesh.hasTexture = true ∧ s.boundTexture = mesh.glTextureName then 1 else 0) +
  avoided mesh.hasVertexColors s.hasClientState_GL_COLOR_ARRAY

/-! ## Pomme::FourCCString (Pomme.cpp:44-57) -/

/-- The statement `*(ResType*)b = t` (Pomme.cpp:46): the four bytes of the
32-bit value `t` in the byte order of the target, lowest byte first unless the
target is big-endian. -/
def storeResType (bigEndian : Bool) (t : Nat) : List Nat :=
  let u := t % 2 ^ 32
  if bigEndian then [u / 2 ^ 24 % 256, u / 2 ^ 16 % 256, u / 2 ^ 8 % 256, u % 256]
  else [u % 256, u / 2 ^ 8 % 256, u / 2 ^ 16 % 256, u / 2 ^ 24 % 256]

/-- The value of a `char` holding the byte `byte`, where `char` is signed or not. -/
def charValue (charIsSigned : Bool) (byte : Nat) : Int :=
  if charIsSigned && decide (128 ≤ byte) then (byte : Int) - 256 else (byte : Int)

/-- The body of the loop of Pomme.cpp:51-54 for one byte: `' '` is 32, `'~'` is
126 and `'?'` is 63. -/
def replaceNonAscii (charIsSigned : Bool) (byte : Nat) : Nat :=
  let c := charValue charIsSigned byte
  if c < 32 || c > 126 then 63 else byte

/-- The `std::string` made from a `char` array: the bytes before the first zero. -/
def stringOfCString (b : List Nat) : List Nat :=
  b.takeWhile (fun c => c != 0)

/-- The function `Pomme::FourCCString` (Pomme.cpp:44-57), the result as the list of
its bytes. `TARGET_RT_BIGENDIAN` is the macro of that name, taken to tell the
byte order of the target; `charIsSigned` tells whether `char` is signed. -/
def Pomme.FourCCString (TARGET_RT_BIGENDIAN charIsSigned : Bool) (t : Nat) : List Nat :=
  let b := storeResType TARGET_RT_BIGENDIAN t
  let b := if !TARGET_RT_BIGENDIAN then b.reverse else b
  let b := b.map (replaceNonAscii charIsSigned)
  stringOfCString (b ++ [0])

/-- The printable character for a byte: the byte itself from `0x20` to `0x7E`,
and `'?'` otherwise. -/
def printableOr (byte : Nat) : Nat :=
  if 0x20 ≤ byte ∧ byte ≤ 0x7E then byte else 63

/-! ## Sample data -/

/-- A backend as a new context has it: nothing enabled, no texture bound. -/
def sampleBackendFresh : Backend :=
  { enabled := fun _ => false, clientEnabled := fun _ => false, textureBinding := fun _ => 0,
    matrixDepth := 1 }


/-- Status-bit masks, as three distinct bits, and an address for `gEnvMapUVs`. -/
def sampleGlobals : Globals :=
  { STATUS_BIT_REFLECTIONMAP := 1, STATUS_BIT_KEEPBACKFACES := 2, STATUS_BIT_NULLSHADER := 4,
    gEnvMapUVs := 4096 }

/-- An opaque white untextured mesh with 2 triangles on 4 points. -/
def sampleMeshOpaque : TQ3TriMeshData :=
  { numTriangles := 2, triangles := 100, numPoints := 4, points := 200, vertexNormals := 300,
    vertexUVs := 400, vertexColors := 500,
    diffuseColor := ⟨f32_one, f32_one, f32_one, f32_one⟩,
    hasTexture := false, textureHasTransparency := false, glTextureName := 0,
    hasVertexColors := false }

/-- An empty mesh: no triangles and no points. -/
def sampleMeshEmpty : TQ3TriMeshData :=
  { sampleMeshOpaque with numTriangles := 0, numPoints := 0 }

/-- The same mesh with diffuse alpha 0.5. -/
def sampleMeshHalf : TQ3TriMeshData :=
  { sampleMeshOpaque with diffuseColor := ⟨f32_one, f32_one, f32_one, f32_half⟩ }

/-- An opaque white mesh with 3 triangles, textured with the texture named 7. -/
def sampleMeshTextured : TQ3TriMeshData :=
  { sampleMeshOpaque with numTriangles := 3, hasTexture := true, glTextureName := 7 }

/-- A backend with every capability on and texture 7 bound everywhere. -/
def sampleBackendOn : Backend :=
  { enabled := fun _ => true, clientEnabled := fun _ => true, textureBinding := fun _ => 7,
    matrixDepth := 1 }

/-- The world that `Render_InitState` makes of `sampleWorldOff`. -/
def sampleWorldInit : World := ⟨initState, ⟨0, 0, 0⟩, 1, initCalls⟩

/-- Modifiers that keep back faces, with a neutral colour. -/
def sampleModsKeepBackfaces : RenderModifiers :=
  { statusBits := 2, diffuseColor := ⟨f32_one, f32_one, f32_one, f32_one⟩ }

/-- Modifiers that ask for the null shader, with a neutral colour. -/
def sampleModsNullShader : RenderModifiers :=
  { statusBits := 4, diffuseColor := ⟨f32_one, f32_one, f32_one, f32_one⟩ }

/-- A transform with an identity matrix. -/
def sampleTransform : TQ3Matrix4x4 :=
  ⟨[f32_one, ⟨0⟩, ⟨0⟩, ⟨0⟩, ⟨0⟩, f32_one, ⟨0⟩, ⟨0⟩, ⟨0⟩, ⟨0⟩, f32_one, ⟨0⟩, ⟨0⟩, ⟨0⟩, ⟨0⟩, f32_one]⟩


/-- A cache with every flag on and texture 7 bound. -/
def sampleStateOn : RendererState :=
  ⟨7, true, true, true, true, true, true, true, true, true, true, true⟩

/-- A cache with every flag off and no texture bound. -/
def sampleStateOff : RendererState :=
  ⟨0, false, false, false, false, false, false, false, false, false, false, false⟩

/-- A world with every cached flag on, zeroed counters and an empty log. -/
def sampleWorldOn : World := ⟨sampleStateOn, ⟨0, 0, 0⟩, 1, []⟩

/-- A world with every cached flag off, zeroed counters and an empty log. -/
def sampleWorldOff : World := ⟨sampleStateOff, ⟨0, 0, 0⟩, 1, []⟩

/-! ## Basic lemmas -/

section Basics

variable (c : Call) (p q : FlagPtr) (v : Bool) (e : GLenum) (w : World) (s : RendererState)

@[simp] theorem emit_gState : (w.emit c).gState = w.gState := rfl
@[simp] theorem emit_calls : (w.emit c).calls = w.calls ++ [c] := rfl
@[simp] theorem emit_stats : (w.emit c).gRenderStats = w.gRenderStats := rfl
@[simp] theorem emit_proc : (w.emit c).glDrawRangeElementsProc = w.glDrawRangeElementsProc := rfl

@[simp] theorem incr_gState : w.batchedStateChangesIncr.gState = w.gState := rfl
@[simp] theorem incr_calls : w.batchedStateChangesIncr.calls = w.calls := rfl
@[simp] theorem incr_proc :
    w.batchedStateChangesIncr.glDrawRangeElementsProc = w.glDrawRangeElementsProc := rfl
@[simp] theorem incr_batched : w.batchedStateChangesIncr.gRenderStats.batchedStateChanges
    = w.gRenderStats.batchedStateChanges + 1 := rfl
@[simp] theorem incr_triangles : w.batchedStateChangesIncr.gRenderStats.trianglesDrawn
    = w.gRenderStats.trianglesDrawn := rfl
@[simp] theorem incr_meshes : w.batchedStateChangesIncr.gRenderStats.meshesDrawn
    = w.gRenderStats.meshesDrawn := rfl

@[simp] theorem storeFlag_gState : (w.storeFlag p v).gState = p.store v w.gState := rfl
@[simp] theorem storeFlag_calls : (w.storeFlag p v).calls = w.calls := rfl
@[simp] theorem storeFlag_stats : (w.storeFlag p v).gRenderStats = w.gRenderStats := rfl
@[simp] theorem storeFlag_proc :
    (w.storeFlag p v).glDrawRangeElementsProc = w.glDrawRangeElementsProc := rfl

theorem load_store : q.load (p.store v s) = if q = p then v else q.load s := by
  cases p <;> cases q <;> rfl

@[simp] theorem load_store_self : p.load (p.store v s) = v := by
  cases p <;> rfl

theorem load_store_of_ne (h : q ≠ p) : q.load (p.store v s) = q.load s := by
  rw [load_store, if_neg h]

@[simp] theorem store_boundTexture : (p.store v s).boundTexture = s.boundTexture := by
  cases p <;> rfl

theorem store_load_self (h : p.load s = v) : p.store v s = s := by
  subst h; cases p <;> rfl

theorem EnableState_gState : (__EnableState e p w).gState = p.store true w.gState := by
  unfold __EnableState
  cases h : p.load w.gState <;> simp [h, store_load_self]

theorem EnableState_calls : (__EnableState e p w).calls
    = w.calls ++ (if p.load w.gState then [] else [.glEnable e]) := by
  unfold __EnableState
  cases h : p.load w.gState <;> simp [h]

theorem EnableState_batched : (__EnableState e p w).gRenderStats.batchedStateChanges
    = w.gRenderStats.batchedStateChanges + (if p.load w.gState then 1 else 0) := by
  unfold __EnableState
  cases h : p.load w.gState <;> simp [h]

theorem EnableClientState_gState :
    (__EnableClientState e p w).gState = p.store true w.gState := by
  unfold __EnableClientState
  cases h : p.load w.gState <;> simp [h, store_load_self]

theorem EnableClientState_calls : (__EnableClientState e p w).calls
    = w.calls ++ (if p.load w.gState then [] else [.glEnableClientState e]) := by
  unfold __EnableClientState
  cases h : p.load w.gState <;> simp [h]

theorem EnableClientState_batched :
    (__EnableClientState e p w).gRenderStats.batchedStateChanges
    = w.gRenderStats.batchedStateChanges + (if p.load w.gState then 1 else 0) := by
  unfold __EnableClientState
  cases h : p.load w.gState <;> simp [h]

theorem DisableState_gState : (__DisableState e p w).gState = p.store false w.gState := by
  unfold __DisableState
  cases h : p.load w.gState <;> simp [h, store_load_self]

theorem DisableState_calls : (__DisableState e p w).calls
    = w.calls ++ (if p.load w.gState then [.glDisable e] else []) := by
  unfold __DisableState
  cases h : p.load w.gState <;> simp [h]

theorem DisableState_batched : (__DisableState e p w).gRenderStats.batchedStateChanges
    = w.gRenderStats.batchedStateChanges + (if p.load w.gState then 0 else 1) := by
  unfold __DisableState
  cases h : p.load w.gState <;> simp [h]

theorem DisableClientState_gState :
    (__DisableClientState e p w).gState = p.store false w.gState := by
  unfold __DisableClientState
  cases h : p.load w.gState <;> simp [h, store_load_self]

theorem DisableClientState_calls : (__DisableClientState e p w).calls
    = w.calls ++ (if p.load w.gState then [.glDisableClientState e] else []) := by
  unfold __DisableClientState
  cases h : p.load w.gState <;> simp [h]

theorem DisableClientState_batched :
    (__DisableClientState e p w).gRenderStats.batchedStateChanges
    = w.gRenderStats.batchedStateChanges + (if p.load w.gState then 0 else 1) := by
  unfold __DisableClientState
  cases h : p.load w.gState <;> simp [h]

theorem bindTexture_boundTexture (t : Nat) : (bindTexture t w).gState.boundTexture = t := by
  unfold bindTexture
  by_cases h : w.gState.boundTexture = t <;> simp [h]

theorem bindTexture_load (t : Nat) : q.load (bindTexture t w).gState = q.load w.gState := by
  unfold bindTexture
  by_cases h : w.gState.boundTexture = t
  · simp [h]
  · simp only [bne_iff_ne, ne_eq, h, not_false_eq_true, if_true]
    cases q <;> rfl

theorem bindTexture_calls (t : Nat) : (bindTexture t w).calls
    = w.calls ++ (if w.gState.boundTexture = t then [] else [.glBindTexture .GL_TEXTURE_2D t]) := by
  unfold bindTexture
  by_cases h : w.gState.boundTexture = t <;> simp [h]

theorem bindTexture_batched (t : Nat) : (bindTexture t w).gRenderStats.batchedStateChanges
    = w.gRenderStats.batchedStateChanges + (if w.gState.boundTexture = t then 1 else 0) := by
  unfold bindTexture
  by_cases h : w.gState.boundTexture = t <;> simp [h]

/-- None of the ensure operations touches the draw counters or the function pointer. -/
theorem ensure_rest :
    ((__EnableState e p w).gRenderStats.trianglesDrawn = w.gRenderStats.trianglesDrawn ∧
      (__EnableState e p w).gRenderStats.meshesDrawn = w.gRenderStats.meshesDrawn ∧
      (__EnableState e p w).glDrawRangeElementsProc = w.glDrawRangeElementsProc) ∧
    ((__EnableClientState e p w).gRenderStats.trianglesDrawn = w.gRenderStats.trianglesDrawn ∧
      (__EnableClientState e p w).gRenderStats.meshesDrawn = w.gRenderStats.meshesDrawn ∧
      (__EnableClientState e p w).glDrawRangeElementsProc = w.glDrawRangeElementsProc) ∧
    ((__DisableState e p w).gRenderStats.trianglesDrawn = w.gRenderStats.trianglesDrawn ∧
      (__DisableState e p w).gRenderStats.meshesDrawn = w.gRenderStats.meshesDrawn ∧
      (__DisableState e p w).glDrawRangeElementsProc = w.glDrawRangeElementsProc) ∧
    ((__DisableClientState e p w).gRenderStats.trianglesDrawn = w.gRenderStats.trianglesDrawn ∧
      (__DisableClientState e p w).gRenderStats.meshesDrawn = w.gRenderStats.meshesDrawn ∧
      (__DisableClientState e p w).glDrawRangeElementsProc = w.glDrawRangeElementsProc) := by
  unfold __EnableState __EnableClientState __DisableState __DisableClientState
  cases h : p.load w.gState <;> simp [h]

theorem bindTexture_rest (t : Nat) :
    (bindTexture t w).gRenderStats.trianglesDrawn = w.gRenderStats.trianglesDrawn ∧
    (bindTexture t w).gRenderStats.meshesDrawn = w.gRenderStats.meshesDrawn ∧
    (bindTexture t w).glDrawRangeElementsProc = w.glDrawRangeElementsProc := by
  unfold bindTexture
  by_cases h : w.gState.boundTexture = t <;> simp [h]

end Basics

/-! ## The ensure operations, one call at a time -/

section Ensure

variable (e : GLenum) (p : FlagPtr) (w : World)

theorem ensureStep_enable : EnsureStep (.glEnable e) true p w (__EnableState e p w) := by
  refine ⟨?_, ?_, ?_, (ensure_rest p e w).1⟩
  · cases h : p.load w.gState <;>
      simp [h, EnableState_calls, EnableState_batched, EnableState_gState]
  · intro q hq
    rw [EnableState_gState, load_store_of_ne _ _ _ _ hq]
  · rw [EnableState_gState, store_boundTexture]

theorem ensureStep_enableClient :
    EnsureStep (.glEnableClientState e) true p w (__EnableClientState e p w) := by
  refine ⟨?_, ?_, ?_, (ensure_rest p e w).2.1⟩
  · cases h : p.load w.gState <;>
      simp [h, EnableClientState_calls, EnableClientState_batched, EnableClientState_gState]
  · intro q hq
    rw [EnableClientState_gState, load_store_of_ne _ _ _ _ hq]
  · rw [EnableClientState_gState, store_boundTexture]

theorem ensureStep_disable : EnsureStep (.glDisable e) false p w (__DisableState e p w) := by
  refine ⟨?_, ?_, ?_, (ensure_rest p e w).2.2.1⟩
  · cases h : p.load w.gState <;>
      simp [h, DisableState_calls, DisableState_batched, DisableState_gState]
  · intro q hq
    rw [DisableState_gState, load_store_of_ne _ _ _ _ hq]
  · rw [DisableState_gState, store_boundTexture]

theorem ensureStep_disableClient :
    EnsureStep (.glDisableClientState e) false p w (__DisableClientState e p w) := by
  refine ⟨?_, ?_, ?_, (ensure_rest p e w).2.2.2⟩
  · cases h : p.load w.gState <;>
      simp [h, DisableClientState_calls, DisableClientState_batched, DisableClientState_gState]
  · intro q hq
    rw [DisableClientState_gState, load_store_of_ne _ _ _ _ hq]
  · rw [DisableClientState_gState, store_boundTexture]

theorem bindStep_bindTexture (t : Nat) : BindStep t w (bindTexture t w) := by
  refine ⟨?_, fun q => bindTexture_load q w t, bindTexture_rest w t⟩
  by_cases h : w.gState.boundTexture = t <;>
    simp [h, bindTexture_calls, bindTexture_batched, bindTexture_boundTexture]

end Ensure

/-- C2: each of the four ensure helpers, for every capability, flag pointer and
world, and the inline texture bind, for every texture name, does exactly one
of two things: with the cached value already as requested it logs no call and
adds one to `batchedStateChanges`; otherwise it logs exactly its one backend
command, sets the cached value, and leaves `batchedStateChanges`. In both
cases everything else in the cache is unchanged. -/
theorem C2_ensure_single_step (e : GLenum) (p : FlagPtr) (t : Nat) (w : World) :
    EnsureStep (.glEnable e) true p w (__EnableState e p w) ∧
    EnsureStep (.glEnableClientState e) true p w (__EnableClientState e p w) ∧
    EnsureStep (.glDisable e) false p w (__DisableState e p w) ∧
    EnsureStep (.glDisableClientState e) false p w (__DisableClientState e p w) ∧
    BindStep t w (bindTexture t w) :=
  ⟨ensureStep_enable e p w, ensureStep_enableClient e p w, ensureStep_disable e p w,
    ensureStep_disableClient e p w, bindStep_bindTexture w t⟩

/-- C3, as stated, fails: with the flag already cached on, two enable-ensure
calls in a row log no enable command at all and add two to the avoided-change
counter, not one command and one increment. -/
theorem C3_counterexample :
    (__EnableState .GL_BLEND .hasState_GL_BLEND
      (__EnableState .GL_BLEND .hasState_GL_BLEND sampleWorldOn)).calls = sampleWorldOn.calls ∧
    (__EnableState .GL_BLEND .hasState_GL_BLEND
      (__EnableState .GL_BLEND .hasState_GL_BLEND sampleWorldOn)).gRenderStats.batchedStateChanges
      = sampleWorldOn.gRenderStats.batchedStateChanges + 2 := by
  decide

/-- C3, amended: two enable-ensure calls in a row on the same flag. If the flag
is cached off at the start, the first call logs the one enable command and
leaves the counter, the second logs nothing and adds one to the counter. If it
is cached on at the start, neither call logs anything and the counter grows by
two. Both for `__EnableState` and for `__EnableClientState`. -/
theorem C3_enable_twice (e : GLenum) (p : FlagPtr) (w : World) :
    (if p.load w.gState = false then
      (__EnableState e p w).calls = w.calls ++ [.glEnable e] ∧
      (__EnableState e p w).gRenderStats.batchedStateChanges
        = w.gRenderStats.batchedStateChanges ∧
      (__EnableState e p (__EnableState e p w)).calls = w.calls ++ [.glEnable e] ∧
      (__EnableState e p (__EnableState e p w)).gRenderStats.batchedStateChanges
        = w.gRenderStats.batchedStateChanges + 1
    else
      (__EnableState e p (__EnableState e p w)).calls = w.calls ∧
      (__EnableState e p (__EnableState e p w)).gRenderStats.batchedStateChanges
        = w.gRenderStats.batchedStateChanges + 2) ∧
    (if p.load w.gState = false then
      (__EnableClientState e p w).calls = w.calls ++ [.glEnableClientState e] ∧
      (__EnableClientState e p w).gRenderStats.batchedStateChanges
        = w.gRenderStats.batchedStateChanges ∧
      (__EnableClientState e p (__EnableClientState e p w)).calls
        = w.calls ++ [.glEnableClientState e] ∧
      (__EnableClientState e p (__EnableClientState e p w)).gRenderStats.batchedStateChanges
        = w.gRenderStats.batchedStateChanges + 1
    else
      (__EnableClientState e p (__EnableClientState e p w)).calls = w.calls ∧
      (__EnableClientState e p (__EnableClientState e p w)).gRenderStats.batchedStateChanges
        = w.gRenderStats.batchedStateChanges + 2) := by
  cases h : p.load w.gState
  · simp [h, EnableState_calls, EnableState_batched, EnableState_gState,
      EnableClientState_calls, EnableClientState_batched, EnableClientState_gState]
  · simp [h, EnableState_calls, EnableState_batched, EnableState_gState,
      EnableClientState_calls, EnableClientState_batched, EnableClientState_gState]
    omega

/-! ## Sequences of ensure calls -/

theorem runEnsureCalls_append (cs : List EnsureCall) (c : EnsureCall) (w : World) :
    runEnsureCalls (cs ++ [c]) w = c.run (runEnsureCalls cs w) := by
  simp [runEnsureCalls, List.foldl_append]

/-- After one ensure call a flag has the requested value if the call names it,
and its old value otherwise. -/
theorem run_load (c : EnsureCall) (p : FlagPtr) (w : World) :
    p.load (c.run w).gState = (c.flagRequest p).getD (p.load w.gState) := by
  cases c with
  | enableState e q =>
    simp only [EnsureCall.run, EnsureCall.flagRequest, EnableState_gState, load_store]
    by_cases h : q = p
    · simp [h]
    · simp [h, Ne.symm h]
  | enableClientState e q =>
    simp only [EnsureCall.run, EnsureCall.flagRequest, EnableClientState_gState, load_store]
    by_cases h : q = p
    · simp [h]
    · simp [h, Ne.symm h]
  | disableState e q =>
    simp only [EnsureCall.run, EnsureCall.flagRequest, DisableState_gState, load_store]
    by_cases h : q = p
    · simp [h]
    · simp [h, Ne.symm h]
  | disableClientState e q =>
    simp only [EnsureCall.run, EnsureCall.flagRequest, DisableClientState_gState, load_store]
    by_cases h : q = p
    · simp [h]
    · simp [h, Ne.symm h]
  | bindTexture t =>
    simp [EnsureCall.run, EnsureCall.flagRequest, bindTexture_load]

/-- After one ensure call the cached texture name is the requested one for a
bind, and the old one otherwise. -/
theorem run_boundTexture (c : EnsureCall) (w : World) :
    (c.run w).gState.boundTexture = c.bindRequest.getD w.gState.boundTexture := by
  cases c <;>
    simp [EnsureCall.run, EnsureCall.bindRequest, EnableState_gState, EnableClientState_gState,
      DisableState_gState, DisableClientState_gState, bindTexture_boundTexture]

/-- C4: last call wins. After any sequence of ensure calls from any world, the
cached value of every flag is the value requested by the last call of the
sequence naming that flag (on for an enable, off for a disable), or its
starting value if no call names it; and the cached texture name is that of the
last bind of the sequence, or the starting one if there is no bind. -/
theorem C4_last_call_wins (cs : List EnsureCall) (w : World) :
    (∀ p : FlagPtr, p.load (runEnsureCalls cs w).gState
      = (lastFlagRequest p cs).getD (p.load w.gState)) ∧
    (runEnsureCalls cs w).gState.boundTexture
      = (lastBindRequest cs).getD w.gState.boundTexture := by
  induction cs using List.reverseRecOn with
  | nil => simp [runEnsureCalls, lastFlagRequest, lastBindRequest]
  | append_singleton cs c ih =>
    obtain ⟨ihf, iht⟩ := ih
    constructor
    · intro p
      rw [runEnsureCalls_append, run_load, ihf p]
      unfold lastFlagRequest
      rw [List.filterMap_append]
      cases h : c.flagRequest p <;> simp [List.filterMap, h]
    · rw [runEnsureCalls_append, run_boundTexture, iht]
      unfold lastBindRequest
      rw [List.filterMap_append]
      cases h : c.bindRequest <;> simp [List.filterMap, h]

/-! ## Render_InitState -/

/-- With the entry point found, `Render_InitState` returns this world. -/
theorem Render_InitState_eq (procAddress : Nat) (w : World) (h : procAddress ≠ 0) :
    Render_InitState procAddress w = some
      { gState := initState, gRenderStats := w.gRenderStats,
        glDrawRangeElementsProc := procAddress, calls := w.calls ++ initCalls } := by
  simp [Render_InitState, Render_GetGLProcAddresses, h, __SetInitialState,
    __SetInitialClientState, World.emit, World.storeFlag, FlagPtr.store, initState, initCalls]

/-- With the entry point missing, `Render_InitState` stops at the assertion. -/
theorem Render_InitState_null (w : World) : Render_InitState 0 w = none := by
  simp [Render_InitState, Render_GetGLProcAddresses]

/-- C5: initialization is unconditional. From every world (any cached flags,
any counters) and with the entry point `glDrawRangeElements` found,
`Render_InitState` returns; it logs exactly the eleven enable/disable commands
of `initCalls`, one for each flag and whatever the flag cached before; it
leaves the counters; the cache becomes `initState`; and the backend, whatever
it was before, then has vertex, normal and texture-coordinate arrays on, the
colour array off, culling, alpha test, depth test, colour material and
lighting on, texturing and blending off. -/
theorem C5_init_unconditional (procAddress : Nat) (w : World) (b0 : Backend)
    (h : procAddress ≠ 0) :
    ∃ w', Render_InitState procAddress w = some w' ∧
      w'.calls = w.calls ++ initCalls ∧
      w'.gRenderStats = w.gRenderStats ∧
      w'.gState = initState ∧
      (glRun b0 w'.calls).clientEnabled .GL_VERTEX_ARRAY = true ∧
      (glRun b0 w'.calls).clientEnabled .GL_NORMAL_ARRAY = true ∧
      (glRun b0 w'.calls).clientEnabled .GL_COLOR_ARRAY = false ∧
      (glRun b0 w'.calls).clientEnabled .GL_TEXTURE_COORD_ARRAY = true ∧
      (glRun b0 w'.calls).enabled .GL_CULL_FACE = true ∧
      (glRun b0 w'.calls).enabled .GL_ALPHA_TEST = true ∧
      (glRun b0 w'.calls).enabled .GL_DEPTH_TEST = true ∧
      (glRun b0 w'.calls).enabled .GL_COLOR_MATERIAL = true ∧
      (glRun b0 w'.calls).enabled .GL_TEXTURE_2D = false ∧
      (glRun b0 w'.calls).enabled .GL_BLEND = false ∧
      (glRun b0 w'.calls).enabled .GL_LIGHTING = true := by
  refine ⟨_, Render_InitState_eq procAddress w h, rfl, rfl, rfl, ?_⟩
  simp [glRun, List.foldl_append, Backend.apply, initCalls]

/-- C5 at a concrete input: with the entry point at address 1, initialization
from a cache with every flag on returns, with the default cache and the
counters kept. -/
theorem C5_init_unconditional_witness :
    (1 : Nat) ≠ 0 ∧
    ∃ w', Render_InitState 1 sampleWorldOn = some w' ∧
      w'.calls = sampleWorldOn.calls ++ initCalls ∧
      w'.gRenderStats = sampleWorldOn.gRenderStats ∧
      w'.gState = initState :=
  ⟨by decide,
    (C5_init_unconditional 1 sampleWorldOn sampleBackendOn (by decide)).imp
      fun _ h => ⟨h.1, h.2.1, h.2.2.1, h.2.2.2.1⟩⟩

/-! ## The loop, piece by piece -/

theorem meshLoop_append (X : Globals) (t : Option TQ3Matrix4x4) (m : RenderModifiers)
    (env : Bool) (xs ys : List TQ3TriMeshData) (w : World) :
    meshLoop X t m env (xs ++ ys) w = meshLoop X t m env ys (meshLoop X t m env xs w) := by
  induction xs generalizing w with
  | nil => rfl
  | cons x xs ih => simp [meshLoop, ih]

/-- The draw of `mesh`, in a call on `done ++ mesh :: rest`, is issued from the
world `worldAtDraw`: the call is the rest of the loop and the pop, run from
`meshSubmit mesh` of that world. -/
theorem Render_DrawTriMeshList_split (X : Globals) (done rest : List TQ3TriMeshData)
    (mesh : TQ3TriMeshData) (t : Option TQ3Matrix4x4) (mods : Option RenderModifiers)
    (w : World) :
    Render_DrawTriMeshList X (done ++ mesh :: rest) t mods w
      = popTransform t (meshLoop X t (modsOrDefault mods)
          (statusBit (modsOrDefault mods) X.STATUS_BIT_REFLECTIONMAP) rest
          (meshSubmit mesh (worldAtDraw X done mesh t mods w))) := by
  simp [Render_DrawTriMeshList, worldAtDraw, worldAfterMeshes, meshLoop_append, meshLoop]

/-- The first thing `meshSubmit` does is to log the draw command. -/
theorem meshSubmit_calls (mesh : TQ3TriMeshData) (w : World) :
    (meshSubmit mesh w).calls = w.calls ++ [drawCall w.glDrawRangeElementsProc mesh] := rfl

theorem meshSubmit_gState (mesh : TQ3TriMeshData) (w : World) :
    (meshSubmit mesh w).gState = w.gState := rfl

/-- The call is the pop after the world reached when the whole list is done. -/
theorem Render_DrawTriMeshList_eq (X : Globals) (meshList : List TQ3TriMeshData)
    (t : Option TQ3Matrix4x4) (mods : Option RenderModifiers) (w : World) :
    Render_DrawTriMeshList X meshList t mods w
      = popTransform t (worldAfterMeshes X meshList t mods w) := rfl

theorem worldAfterMeshes_snoc (X : Globals) (done : List TQ3TriMeshData)
    (mesh : TQ3TriMeshData) (t : Option TQ3Matrix4x4) (mods : Option RenderModifiers)
    (w : World) :
    worldAfterMeshes X (done ++ [mesh]) t mods w
      = meshSubmit mesh (worldAtDraw X done mesh t mods w) := by
  simp [worldAtDraw, worldAfterMeshes, meshLoop_append, meshLoop]

/-! ## The cache mirrors the backend -/

theorem glRun_append (b : Backend) (xs ys : List Call) :
    glRun b (xs ++ ys) = glRun (glRun b xs) ys := by
  simp [glRun, List.foldl_append]

@[simp] theorem glRun_nil (b : Backend) : glRun b [] = b := rfl

@[simp] theorem glRun_singleton (b : Backend) (c : Call) : glRun b [c] = b.apply c := rfl

theorem mirrors_iff (s : RendererState) (b : Backend) :
    Mirrors s b ↔
      (∀ p : FlagPtr, p.load s = p.backend b) ∧ s.boundTexture = b.textureBinding .GL_TEXTURE_2D := by
  constructor
  · intro h
    obtain ⟨h1, h2, h3, h4, h5, h6, h7, h8, h9, h10, h11, h12⟩ := h
    refine ⟨fun p => ?_, h12⟩
    cases p <;> simp [FlagPtr.load, FlagPtr.backend, FlagPtr.isClient, FlagPtr.cap, *]
  · intro h
    obtain ⟨hf, ht⟩ := h
    exact ⟨hf .hasClientState_GL_TEXTURE_COORD_ARRAY, hf .hasClientState_GL_VERTEX_ARRAY,
      hf .hasClientState_GL_COLOR_ARRAY, hf .hasClientState_GL_NORMAL_ARRAY,
      hf .hasState_GL_CULL_FACE, hf .hasState_GL_ALPHA_TEST, hf .hasState_GL_DEPTH_TEST,
      hf .hasState_GL_COLOR_MATERIAL, hf .hasState_GL_TEXTURE_2D, hf .hasState_GL_BLEND,
      hf .hasState_GL_LIGHTING, ht⟩

theorem backend_apply_glEnable (p q : FlagPtr) (b : Backend) (hp : p.isClient = false) :
    q.backend (b.apply (.glEnable p.cap)) = if q = p then true else q.backend b := by
  cases p <;> cases q <;> first | rfl | exact absurd hp (by decide)

theorem backend_apply_glDisable (p q : FlagPtr) (b : Backend) (hp : p.isClient = false) :
    q.backend (b.apply (.glDisable p.cap)) = if q = p then false else q.backend b := by
  cases p <;> cases q <;> first | rfl | exact absurd hp (by decide)

theorem backend_apply_glEnableClientState (p q : FlagPtr) (b : Backend)
    (hp : p.isClient = true) :
    q.backend (b.apply (.glEnableClientState p.cap)) = if q = p then true else q.backend b := by
  cases p <;> cases q <;> first | rfl | exact absurd hp (by decide)

theorem backend_apply_glDisableClientState (p q : FlagPtr) (b : Backend)
    (hp : p.isClient = true) :
    q.backend (b.apply (.glDisableClientState p.cap)) = if q = p then false else q.backend b := by
  cases p <;> cases q <;> first | rfl | exact absurd hp (by decide)

theorem backend_apply_glBindTexture (q : FlagPtr) (b : Backend) (target : GLenum) (t : Nat) :
    q.backend (b.apply (.glBindTexture target t)) = q.backend b := rfl

/-- A call that is not a state change leaves the capabilities and the texture binding. -/
theorem backend_apply_other (b : Backend) (c : Call) (hc : c.isStateChange = false) :
    (∀ q : FlagPtr, q.backend (b.apply c) = q.backend b) ∧
    (b.apply c).textureBinding = b.textureBinding := by
  cases c <;> first | exact ⟨fun _ => rfl, rfl⟩ | exact absurd hc (by simp [Call.isStateChange])

section ConsistentSteps

variable (b0 : Backend) (w : World)

theorem consistent_emit (c : Call) (hc : c.isStateChange = false) (h : Consistent b0 w) :
    Consistent b0 (w.emit c) := by
  unfold Consistent at *
  rw [mirrors_iff] at *
  obtain ⟨h1, h2⟩ := backend_apply_other (glRun b0 w.calls) c hc
  simp only [emit_gState, emit_calls, glRun_append, glRun_singleton, h1, h2]
  exact h

theorem consistent_enable (p : FlagPtr) (hp : p.isClient = false) (h : Consistent b0 w) :
    Consistent b0 (__EnableState p.cap p w) := by
  unfold Consistent at *
  rw [mirrors_iff] at *
  rw [EnableState_gState, EnableState_calls]
  cases hl : p.load w.gState
  · simp only [Bool.false_eq_true, if_false, glRun_append, glRun_singleton, store_boundTexture]
    refine ⟨fun q => ?_, h.2⟩
    rw [load_store, backend_apply_glEnable p q _ hp, h.1 q]
  · simpa [store_load_self p true w.gState hl] using h

theorem consistent_disable (p : FlagPtr) (hp : p.isClient = false) (h : Consistent b0 w) :
    Consistent b0 (__DisableState p.cap p w) := by
  unfold Consistent at *
  rw [mirrors_iff] at *
  rw [DisableState_gState, DisableState_calls]
  cases hl : p.load w.gState
  · simpa [store_load_self p false w.gState hl] using h
  · simp only [if_true, glRun_append, glRun_singleton, store_boundTexture]
    refine ⟨fun q => ?_, h.2⟩
    rw [load_store, backend_apply_glDisable p q _ hp, h.1 q]

theorem consistent_enableClient (p : FlagPtr) (hp : p.isClient = true) (h : Consistent b0 w) :
    Consistent b0 (__EnableClientState p.cap p w) := by
  unfold Consistent at *
  rw [mirrors_iff] at *
  rw [EnableClientState_gState, EnableClientState_calls]
  cases hl : p.load w.gState
  · simp only [Bool.false_eq_true, if_false, glRun_append, glRun_singleton, store_boundTexture]
    refine ⟨fun q => ?_, h.2⟩
    rw [load_store, backend_apply_glEnableClientState p q _ hp, h.1 q]
  · simpa [store_load_self p true w.gState hl] using h

theorem consistent_disableClient (p : FlagPtr) (hp : p.isClient = true) (h : Consistent b0 w) :
    Consistent b0 (__DisableClientState p.cap p w) := by
  unfold Consistent at *
  rw [mirrors_iff] at *
  rw [DisableClientState_gState, DisableClientState_calls]
  cases hl : p.load w.gState
  · simpa [store_load_self p false w.gState hl] using h
  · simp only [if_true, glRun_append, glRun_singleton, store_boundTexture]
    refine ⟨fun q => ?_, h.2⟩
    rw [load_store, backend_apply_glDisableClientState p q _ hp, h.1 q]

theorem consistent_bindTexture (t : Nat) (h : Consistent b0 w) :
    Consistent b0 (bindTexture t w) := by
  unfold Consistent at *
  rw [mirrors_iff] at *
  refine ⟨fun q => ?_, ?_⟩
  · rw [bindTexture_load, bindTexture_calls, h.1 q]
    by_cases ht : w.gState.boundTexture = t
    · simp [ht]
    · simp only [ht, if_false, glRun_append, glRun_singleton, backend_apply_glBindTexture]
  · rw [bindTexture_boundTexture, bindTexture_calls]
    by_cases ht : w.gState.boundTexture = t
    · simpa [ht] using h.2
    · simp [ht, glRun_append, Backend.apply]

theorem consistent_blendDecision (mods : RenderModifiers) (mesh : TQ3TriMeshData)
    (h : Consistent b0 w) : Consistent b0 (blendDecision mods mesh w) := by
  unfold blendDecision
  split
  · exact consistent_disable b0 _ .hasState_GL_ALPHA_TEST rfl
      (consistent_enable b0 _ .hasState_GL_BLEND rfl h)
  · exact consistent_enable b0 _ .hasState_GL_ALPHA_TEST rfl
      (consistent_disable b0 _ .hasState_GL_BLEND rfl h)

theorem consistent_cullingDecision (X : Globals) (mods : RenderModifiers)
    (h : Consistent b0 w) : Consistent b0 (cullingDecision X mods w) := by
  unfold cullingDecision
  split
  · exact consistent_disable b0 _ .hasState_GL_CULL_FACE rfl h
  · exact consistent_enable b0 _ .hasState_GL_CULL_FACE rfl h

theorem consistent_lightingDecision (X : Globals) (mods : RenderModifiers)
    (h : Consistent b0 w) : Consistent b0 (lightingDecision X mods w) := by
  unfold lightingDecision
  split
  · exact consistent_disable b0 _ .hasState_GL_LIGHTING rfl h
  · exact consistent_enable b0 _ .hasState_GL_LIGHTING rfl h

theorem consistent_vertexPointers (mesh : TQ3TriMeshData) (h : Consistent b0 w) :
    Consistent b0 (vertexPointers mesh w) :=
  consistent_emit b0 _ _ rfl (consistent_emit b0 _ _ rfl h)

theorem consistent_textureDecision (X : Globals) (env : Bool) (mesh : TQ3TriMeshData)
    (h : Consistent b0 w) : Consistent b0 (textureDecision X env mesh w) := by
  unfold textureDecision
  split
  · exact consistent_emit b0 _ _ rfl (consistent_bindTexture b0 _ _
      (consistent_enableClient b0 _ .hasClientState_GL_TEXTURE_COORD_ARRAY rfl
        (consistent_enable b0 _ .hasState_GL_TEXTURE_2D rfl h)))
  · exact consistent_disableClient b0 _ .hasClientState_GL_TEXTURE_COORD_ARRAY rfl
      (consistent_disable b0 _ .hasState_GL_TEXTURE_2D rfl h)

theorem consistent_vertexColorDecision (mesh : TQ3TriMeshData) (h : Consistent b0 w) :
    Consistent b0 (vertexColorDecision mesh w) := by
  unfold vertexColorDecision
  split
  · exact consistent_emit b0 _ _ rfl
      (consistent_enableClient b0 _ .hasClientState_GL_COLOR_ARRAY rfl h)
  · exact consistent_disableClient b0 _ .hasClientState_GL_COLOR_ARRAY rfl h

theorem consistent_meshSetup (X : Globals) (t : Option TQ3Matrix4x4) (mods : RenderModifiers)
    (env : Bool) (mesh : TQ3TriMeshData) (h : Consistent b0 w) :
    Consistent b0 (meshSetup X t mods env mesh w) := by
  unfold meshSetup
  have h0 : Consistent b0 (environmentMapStep t env mesh w) := by
    unfold environmentMapStep
    split
    · exact consistent_emit b0 _ _ rfl h
    · exact h
  exact consistent_emit b0 _ _ rfl (consistent_vertexColorDecision b0 _ mesh
    (consistent_textureDecision b0 _ X env mesh (consistent_vertexPointers b0 _ mesh
      (consistent_lightingDecision b0 _ X mods (consistent_cullingDecision b0 _ X mods
        (consistent_blendDecision b0 _ mods mesh h0))))))

theorem consistent_meshSubmit (mesh : TQ3TriMeshData) (h : Consistent b0 w) :
    Consistent b0 (meshSubmit mesh w) :=
  consistent_emit b0 w (drawCall w.glDrawRangeElementsProc mesh) rfl h

theorem consistent_meshLoop (X : Globals) (t : Option TQ3Matrix4x4) (mods : RenderModifiers)
    (env : Bool) (meshes : List TQ3TriMeshData) (h : Consistent b0 w) :
    Consistent b0 (meshLoop X t mods env meshes w) := by
  induction meshes generalizing w with
  | nil => exact h
  | cons mesh rest ih =>
    exact ih _ (consistent_meshSubmit b0 _ mesh (consistent_meshSetup b0 _ X t mods env mesh h))

theorem consistent_pushTransform (t : Option TQ3Matrix4x4) (h : Consistent b0 w) :
    Consistent b0 (pushTransform t w) := by
  cases t with
  | none => exact h
  | some m => exact consistent_emit b0 _ _ rfl (consistent_emit b0 _ _ rfl h)

theorem consistent_popTransform (t : Option TQ3Matrix4x4) (h : Consistent b0 w) :
    Consistent b0 (popTransform t w) := by
  cases t with
  | none => exact h
  | some m => exact consistent_emit b0 _ _ rfl h

theorem consistent_worldAfterMeshes (X : Globals) (done : List TQ3TriMeshData)
    (t : Option TQ3Matrix4x4) (mods : Option RenderModifiers) (h : Consistent b0 w) :
    Consistent b0 (worldAfterMeshes X done t mods w) :=
  consistent_meshLoop b0 _ X t _ _ done (consistent_pushTransform b0 w t h)

theorem consistent_worldAtDraw (X : Globals) (done : List TQ3TriMeshData)
    (mesh : TQ3TriMeshData) (t : Option TQ3Matrix4x4) (mods : Option RenderModifiers)
    (h : Consistent b0 w) : Consistent b0 (worldAtDraw X done mesh t mods w) :=
  consistent_meshSetup b0 _ X t _ _ mesh (consistent_worldAfterMeshes b0 w X done t mods h)

end ConsistentSteps

/-- C1: `Render_DrawTriMeshList` preserves the agreement of cache and backend.
The backend is the one obtained by replaying the logged calls. For every mesh
list, optional transform and optional modifiers: if before the call the eleven
cached flags and the cached texture name equal the backend's values, they do
so again when the call returns, and also inside the loop after each mesh (after
the first `k` meshes, for every `k`). -/
theorem C1_draw_preserves_mirror (X : Globals) (meshList : List TQ3TriMeshData)
    (transform : Option TQ3Matrix4x4) (mods : Option RenderModifiers) (b0 : Backend)
    (w : World) (h : Mirrors w.gState (glRun b0 w.calls)) :
    Mirrors (Render_DrawTriMeshList X meshList transform mods w).gState
      (glRun b0 (Render_DrawTriMeshList X meshList transform mods w).calls) ∧
    ∀ k : Nat, Mirrors (worldAfterMeshes X (meshList.take k) transform mods w).gState
      (glRun b0 (worldAfterMeshes X (meshList.take k) transform mods w).calls) :=
  ⟨consistent_popTransform b0 _ transform
      (consistent_worldAfterMeshes b0 w X meshList transform mods h),
    fun k => consistent_worldAfterMeshes b0 w X (meshList.take k) transform mods h⟩

/-- C1 at a concrete input: a cache with every flag on mirrors a backend with
every capability on, and still mirrors it after a call on two meshes with a
transform. -/
theorem C1_draw_preserves_mirror_witness :
    Mirrors sampleWorldOn.gState (glRun sampleBackendOn sampleWorldOn.calls) ∧
    Mirrors
      (Render_DrawTriMeshList sampleGlobals [sampleMeshHalf, sampleMeshTextured]
        (some sampleTransform) none sampleWorldOn).gState
      (glRun sampleBackendOn
        (Render_DrawTriMeshList sampleGlobals [sampleMeshHalf, sampleMeshTextured]
          (some sampleTransform) none sampleWorldOn).calls) :=
  ⟨by decide,
    (C1_draw_preserves_mirror sampleGlobals [sampleMeshHalf, sampleMeshTextured]
      (some sampleTransform) none sampleBackendOn sampleWorldOn (by decide)).1⟩

/-! ## The cache after the setup of a mesh -/

section SetupState

variable (X : Globals) (t : Option TQ3Matrix4x4) (mods : RenderModifiers) (env : Bool)
  (mesh : TQ3TriMeshData) (w : World)

theorem environmentMapStep_gState :
    (environmentMapStep t env mesh w).gState = w.gState := by
  unfold environmentMapStep; split <;> rfl

theorem blendDecision_gState : (blendDecision mods mesh w).gState
    = FlagPtr.store .hasState_GL_ALPHA_TEST (!needsBlending mods mesh)
        (FlagPtr.store .hasState_GL_BLEND (needsBlending mods mesh) w.gState) := by
  unfold blendDecision
  cases needsBlending mods mesh <;> simp [EnableState_gState, DisableState_gState]

theorem cullingDecision_gState : (cullingDecision X mods w).gState
    = FlagPtr.store .hasState_GL_CULL_FACE (!statusBit mods X.STATUS_BIT_KEEPBACKFACES)
        w.gState := by
  unfold cullingDecision
  cases statusBit mods X.STATUS_BIT_KEEPBACKFACES <;>
    simp [EnableState_gState, DisableState_gState]

theorem lightingDecision_gState : (lightingDecision X mods w).gState
    = FlagPtr.store .hasState_GL_LIGHTING (!statusBit mods X.STATUS_BIT_NULLSHADER)
        w.gState := by
  unfold lightingDecision
  cases statusBit mods X.STATUS_BIT_NULLSHADER <;>
    simp [EnableState_gState, DisableState_gState]

theorem vertexPointers_gState : (vertexPointers mesh w).gState = w.gState := rfl

theorem bindTexture_gState (n : Nat) :
    (bindTexture n w).gState = { w.gState with boundTexture := n } := by
  unfold bindTexture
  by_cases h : w.gState.boundTexture = n
  · subst h
    simp
  · simp [h]

theorem textureDecision_gState : (textureDecision X env mesh w).gState
    = if mesh.hasTexture then
        { FlagPtr.store .hasClientState_GL_TEXTURE_COORD_ARRAY true
            (FlagPtr.store .hasState_GL_TEXTURE_2D true w.gState) with
          boundTexture := mesh.glTextureName }
      else
        FlagPtr.store .hasClientState_GL_TEXTURE_COORD_ARRAY false
          (FlagPtr.store .hasState_GL_TEXTURE_2D false w.gState) := by
  unfold textureDecision
  cases mesh.hasTexture <;>
    simp [EnableState_gState, EnableClientState_gState, DisableState_gState,
      DisableClientState_gState, bindTexture_gState]

theorem vertexColorDecision_gState : (vertexColorDecision mesh w).gState
    = FlagPtr.store .hasClientState_GL_COLOR_ARRAY mesh.hasVertexColors w.gState := by
  unfold vertexColorDecision
  cases mesh.hasVertexColors <;> simp [EnableClientState_gState, DisableClientState_gState]

theorem drawColor_gState : (drawColor mods mesh w).gState = w.gState := rfl

/-- The cache at the moment of the draw, in full. -/
theorem meshSetup_gState :
    (meshSetup X t mods env mesh w).gState = setupState X mods mesh w.gState := by
  simp only [meshSetup, drawColor_gState, vertexColorDecision_gState, textureDecision_gState,
    vertexPointers_gState, lightingDecision_gState, cullingDecision_gState,
    blendDecision_gState, environmentMapStep_gState, setupState]
  cases mesh.hasTexture <;> simp [FlagPtr.store]

end SetupState

theorem worldAtDraw_gState (X : Globals) (done : List TQ3TriMeshData) (mesh : TQ3TriMeshData)
    (t : Option TQ3Matrix4x4) (mods : Option RenderModifiers) (w : World) :
    (worldAtDraw X done mesh t mods w).gState
      = setupState X (modsOrDefault mods) mesh (worldAfterMeshes X done t mods w).gState :=
  meshSetup_gState X t _ _ mesh _

theorem f32_one_not_lt : f32_one.lt f32_999 = false := by decide

section Counters

variable (X : Globals) (t : Option TQ3Matrix4x4) (mods : RenderModifiers) (env : Bool)
  (mesh : TQ3TriMeshData) (w : World)

theorem keeps_refl : KeepsDrawCounters w w := ⟨rfl, rfl, rfl⟩

theorem keeps_trans {w1 w2 w3 : World} (h12 : KeepsDrawCounters w1 w2)
    (h23 : KeepsDrawCounters w2 w3) : KeepsDrawCounters w1 w3 :=
  ⟨h23.1.trans h12.1, h23.2.1.trans h12.2.1, h23.2.2.trans h12.2.2⟩

theorem keeps_emit (c : Call) : KeepsDrawCounters w (w.emit c) := ⟨rfl, rfl, rfl⟩

theorem keeps_enable (e : GLenum) (p : FlagPtr) : KeepsDrawCounters w (__EnableState e p w) :=
  (ensure_rest p e w).1

theorem keeps_enableClient (e : GLenum) (p : FlagPtr) :
    KeepsDrawCounters w (__EnableClientState e p w) :=
  (ensure_rest p e w).2.1

theorem keeps_disable (e : GLenum) (p : FlagPtr) : KeepsDrawCounters w (__DisableState e p w) :=
  (ensure_rest p e w).2.2.1

theorem keeps_disableClient (e : GLenum) (p : FlagPtr) :
    KeepsDrawCounters w (__DisableClientState e p w) :=
  (ensure_rest p e w).2.2.2

theorem keeps_bindTexture (n : Nat) : KeepsDrawCounters w (bindTexture n w) :=
  bindTexture_rest w n

theorem keeps_environmentMapStep : KeepsDrawCounters w (environmentMapStep t env mesh w) := by
  unfold environmentMapStep
  split
  · exact keeps_emit w _
  · exact keeps_refl w

theorem keeps_blendDecision : KeepsDrawCounters w (blendDecision mods mesh w) := by
  unfold blendDecision
  split
  · exact keeps_trans (keeps_enable w _ _) (keeps_disable _ _ _)
  · exact keeps_trans (keeps_disable w _ _) (keeps_enable _ _ _)

theorem keeps_cullingDecision : KeepsDrawCounters w (cullingDecision X mods w) := by
  unfold cullingDecision
  split
  · exact keeps_disable w _ _
  · exact keeps_enable w _ _

theorem keeps_lightingDecision : KeepsDrawCounters w (lightingDecision X mods w) := by
  unfold lightingDecision
  split
  · exact keeps_disable w _ _
  · exact keeps_enable w _ _

theorem keeps_vertexPointers : KeepsDrawCounters w (vertexPointers mesh w) := ⟨rfl, rfl, rfl⟩

theorem keeps_textureDecision : KeepsDrawCounters w (textureDecision X env mesh w) := by
  unfold textureDecision
  split
  · exact keeps_trans (keeps_enable w _ _) (keeps_trans (keeps_enableClient _ _ _)
      (keeps_trans (keeps_bindTexture _ _) (keeps_emit _ _)))
  · exact keeps_trans (keeps_disable w _ _) (keeps_disableClient _ _ _)

theorem keeps_vertexColorDecision : KeepsDrawCounters w (vertexColorDecision mesh w) := by
  unfold vertexColorDecision
  split
  · exact keeps_trans (keeps_enableClient w _ _) (keeps_emit _ _)
  · exact keeps_disableClient w _ _

theorem keeps_meshSetup : KeepsDrawCounters w (meshSetup X t mods env mesh w) := by
  unfold meshSetup
  exact keeps_trans (keeps_environmentMapStep t env mesh w)
    (keeps_trans (keeps_blendDecision mods mesh _)
      (keeps_trans (keeps_cullingDecision X mods _)
        (keeps_trans (keeps_lightingDecision X mods _)
          (keeps_trans (keeps_vertexPointers mesh _)
            (keeps_trans (keeps_textureDecision X env mesh _)
              (keeps_trans (keeps_vertexColorDecision mesh _) (keeps_emit _ _)))))))

theorem keeps_pushTransform : KeepsDrawCounters w (pushTransform t w) := by
  cases t <;> exact ⟨rfl, rfl, rfl⟩

theorem keeps_popTransform : KeepsDrawCounters w (popTransform t w) := by
  cases t <;> exact ⟨rfl, rfl, rfl⟩

/-- One iteration adds the mesh's triangles and one mesh, and keeps the pointer. -/
theorem iteration_counters :
    (meshSubmit mesh (meshSetup X t mods env mesh w)).gRenderStats.trianglesDrawn
      = w.gRenderStats.trianglesDrawn + mesh.numTriangles ∧
    (meshSubmit mesh (meshSetup X t mods env mesh w)).gRenderStats.meshesDrawn
      = w.gRenderStats.meshesDrawn + 1 ∧
    (meshSubmit mesh (meshSetup X t mods env mesh w)).glDrawRangeElementsProc
      = w.glDrawRangeElementsProc := by
  obtain ⟨h1, h2, h3⟩ := keeps_meshSetup X t mods env mesh w
  simp [meshSubmit, h1, h2, h3]

theorem meshLoop_counters (meshes : List TQ3TriMeshData) :
    (meshLoop X t mods env meshes w).gRenderStats.trianglesDrawn
      = w.gRenderStats.trianglesDrawn + (meshes.map (fun m => m.numTriangles)).sum ∧
    (meshLoop X t mods env meshes w).gRenderStats.meshesDrawn
      = w.gRenderStats.meshesDrawn + meshes.length ∧
    (meshLoop X t mods env meshes w).glDrawRangeElementsProc = w.glDrawRangeElementsProc := by
  induction meshes generalizing w with
  | nil => simp [meshLoop]
  | cons m rest ih =>
    obtain ⟨h1, h2, h3⟩ := iteration_counters X t mods env m w
    obtain ⟨i1, i2, i3⟩ := ih (meshSubmit m (meshSetup X t mods env m w))
    simp only [meshLoop, i1, i2, i3, h1, h2, h3, List.map_cons, List.sum_cons, List.length_cons]
    refine ⟨by ring, by push_cast; ring, trivial⟩

end Counters

/-- C7: statistics accumulation. From every world, with any transform and any
modifiers, one call of `Render_DrawTriMeshList` on a list of meshes adds the
sum of their triangle counts to `trianglesDrawn` and their number to
`meshesDrawn` (integers without bound), whatever state changes were logged or
avoided. -/
theorem C7_statistics_accumulation (X : Globals) (meshList : List TQ3TriMeshData)
    (transform : Option TQ3Matrix4x4) (mods : Option RenderModifiers) (w : World) :
    (Render_DrawTriMeshList X meshList transform mods w).gRenderStats.trianglesDrawn
      = w.gRenderStats.trianglesDrawn + (meshList.map (fun m => m.numTriangles)).sum ∧
    (Render_DrawTriMeshList X meshList transform mods w).gRenderStats.meshesDrawn
      = w.gRenderStats.meshesDrawn + meshList.length := by
  obtain ⟨p1, p2, -⟩ := keeps_pushTransform transform w
  obtain ⟨l1, l2, -⟩ := meshLoop_counters X transform (modsOrDefault mods)
    (statusBit (modsOrDefault mods) X.STATUS_BIT_REFLECTIONMAP) (pushTransform transform w) meshList
  obtain ⟨q1, q2, -⟩ := keeps_popTransform transform
    (worldAfterMeshes X meshList transform mods w)
  rw [Render_DrawTriMeshList_eq, q1, q2]
  unfold worldAfterMeshes
  rw [l1, l2, p1, p2]
  exact ⟨rfl, rfl⟩

/-! ## The log of the setup of a mesh and of the loop -/

section Logs

variable (X : Globals) (t : Option TQ3Matrix4x4) (mods : RenderModifiers) (env : Bool)
  (mesh : TQ3TriMeshData) (w : World)

theorem EnableState_log (e : GLenum) (p : FlagPtr) :
    (__EnableState e p w).calls = w.calls ++ stateCalls e true (p.load w.gState) := by
  rw [EnableState_calls]; cases p.load w.gState <;> simp [stateCalls]

theorem DisableState_log (e : GLenum) (p : FlagPtr) :
    (__DisableState e p w).calls = w.calls ++ stateCalls e false (p.load w.gState) := by
  rw [DisableState_calls]; cases p.load w.gState <;> simp [stateCalls]

theorem EnableClientState_log (e : GLenum) (p : FlagPtr) :
    (__EnableClientState e p w).calls
      = w.calls ++ clientStateCalls e true (p.load w.gState) := by
  rw [EnableClientState_calls]; cases p.load w.gState <;> simp [clientStateCalls]

theorem DisableClientState_log (e : GLenum) (p : FlagPtr) :
    (__DisableClientState e p w).calls
      = w.calls ++ clientStateCalls e false (p.load w.gState) := by
  rw [DisableClientState_calls]; cases p.load w.gState <;> simp [clientStateCalls]

theorem bindTexture_log (n : Nat) :
    (bindTexture n w).calls = w.calls ++ bindCalls n w.gState.boundTexture := by
  rw [bindTexture_calls]; rfl

theorem environmentMapStep_log : (environmentMapStep t env mesh w).calls
    = w.calls ++ (if env then [.EnvironmentMapTriMesh mesh t] else []) := by
  unfold environmentMapStep
  cases env <;> simp

theorem blendDecision_log : (blendDecision mods mesh w).calls
    = w.calls ++ (stateCalls .GL_BLEND (needsBlending mods mesh) w.gState.hasState_GL_BLEND ++
        stateCalls .GL_ALPHA_TEST (!needsBlending mods mesh) w.gState.hasState_GL_ALPHA_TEST) := by
  unfold blendDecision
  cases needsBlending mods mesh <;>
    simp [EnableState_log, DisableState_log, EnableState_gState, DisableState_gState,
      FlagPtr.load, FlagPtr.store]

theorem cullingDecision_log : (cullingDecision X mods w).calls
    = w.calls ++ stateCalls .GL_CULL_FACE (!statusBit mods X.STATUS_BIT_KEEPBACKFACES)
        w.gState.hasState_GL_CULL_FACE := by
  unfold cullingDecision
  cases statusBit mods X.STATUS_BIT_KEEPBACKFACES <;>
    simp [EnableState_log, DisableState_log, FlagPtr.load]

theorem lightingDecision_log : (lightingDecision X mods w).calls
    = w.calls ++ stateCalls .GL_LIGHTING (!statusBit mods X.STATUS_BIT_NULLSHADER)
        w.gState.hasState_GL_LIGHTING := by
  unfold lightingDecision
  cases statusBit mods X.STATUS_BIT_NULLSHADER <;>
    simp [EnableState_log, DisableState_log, FlagPtr.load]

theorem vertexPointers_log : (vertexPointers mesh w).calls
    = w.calls ++ [.glVertexPointer 3 .GL_FLOAT 0 mesh.points,
        .glNormalPointer .GL_FLOAT 0 mesh.vertexNormals] := by
  simp [vertexPointers]

theorem textureDecision_log : (textureDecision X env mesh w).calls
    = w.calls ++ (stateCalls .GL_TEXTURE_2D mesh.hasTexture w.gState.hasState_GL_TEXTURE_2D ++
        clientStateCalls .GL_TEXTURE_COORD_ARRAY mesh.hasTexture
          w.gState.hasClientState_GL_TEXTURE_COORD_ARRAY ++
        (if mesh.hasTexture then
          bindCalls mesh.glTextureName w.gState.boundTexture ++
          [.glTexCoordPointer 2 .GL_FLOAT 0 (if env then X.gEnvMapUVs else mesh.vertexUVs)]
         else [])) := by
  unfold textureDecision
  cases mesh.hasTexture <;>
    simp [EnableState_log, DisableState_log, EnableClientState_log, DisableClientState_log,
      bindTexture_log, EnableState_gState, DisableState_gState, EnableClientState_gState,
      FlagPtr.load, FlagPtr.store]

theorem vertexColorDecision_log : (vertexColorDecision mesh w).calls
    = w.calls ++ (clientStateCalls .GL_COLOR_ARRAY mesh.hasVertexColors
          w.gState.hasClientState_GL_COLOR_ARRAY ++
        (if mesh.hasVertexColors then [.glColorPointer 4 .GL_FLOAT 0 mesh.vertexColors]
         else [])) := by
  unfold vertexColorDecision
  cases mesh.hasVertexColors <;>
    simp [EnableClientState_log, DisableClientState_log, FlagPtr.load]

/-- The log of the setup of a mesh, in full. -/
theorem meshSetup_log : (meshSetup X t mods env mesh w).calls
    = w.calls ++ setupCalls X t mods env mesh w.gState := by
  simp only [meshSetup, drawColor, emit_calls, vertexColorDecision_log, textureDecision_log,
    vertexPointers_log, lightingDecision_log, cullingDecision_log, blendDecision_log,
    environmentMapStep_log, vertexColorDecision_gState, textureDecision_gState,
    vertexPointers_gState, lightingDecision_gState, cullingDecision_gState,
    blendDecision_gState, environmentMapStep_gState, setupCalls, List.append_assoc]
  cases mesh.hasTexture <;> simp [FlagPtr.store]

theorem meshLoop_gState (meshes : List TQ3TriMeshData) :
    (meshLoop X t mods env meshes w).gState = loopState X mods meshes w.gState := by
  induction meshes generalizing w with
  | nil => rfl
  | cons m rest ih =>
    simp only [meshLoop, loopState, ih, meshSubmit_gState, meshSetup_gState]

theorem meshLoop_log (meshes : List TQ3TriMeshData) :
    (meshLoop X t mods env meshes w).calls
      = w.calls ++ loopCalls X t mods env w.glDrawRangeElementsProc meshes w.gState := by
  induction meshes generalizing w with
  | nil => simp [meshLoop, loopCalls]
  | cons m rest ih =>
    simp only [meshLoop, loopCalls, ih, meshSubmit_calls, meshSubmit_gState, meshSetup_gState,
      meshSetup_log, (iteration_counters X t mods env m w).2.2,
      (keeps_meshSetup X t mods env m w).2.2, List.append_assoc]

end Logs

/-! ## Counting binds, draws and matrix calls -/

section Counting

variable (X : Globals) (t : Option TQ3Matrix4x4) (mods : RenderModifiers) (env : Bool)
  (mesh : TQ3TriMeshData) (s : RendererState)

@[simp] theorem countP_isBind_stateCalls (e : GLenum) (a b : Bool) :
    (stateCalls e a b).countP Call.isBind = 0 := by
  cases a <;> cases b <;> rfl

@[simp] theorem countP_isBind_clientStateCalls (e : GLenum) (a b : Bool) :
    (clientStateCalls e a b).countP Call.isBind = 0 := by
  cases a <;> cases b <;> rfl

@[simp] theorem countP_isBind_bindCalls (n cur : Nat) :
    (bindCalls n cur).countP Call.isBind = if cur = n then 0 else 1 := by
  unfold bindCalls
  split <;> rfl

@[simp] theorem countP_isDraw_stateCalls (e : GLenum) (a b : Bool) :
    (stateCalls e a b).countP Call.isDraw = 0 := by
  cases a <;> cases b <;> rfl

@[simp] theorem countP_isDraw_clientStateCalls (e : GLenum) (a b : Bool) :
    (clientStateCalls e a b).countP Call.isDraw = 0 := by
  cases a <;> cases b <;> rfl

@[simp] theorem countP_isDraw_bindCalls (n cur : Nat) :
    (bindCalls n cur).countP Call.isDraw = 0 := by
  unfold bindCalls
  split <;> rfl

theorem not_matrix_stateCalls (e : GLenum) (a b : Bool) :
    ∀ c ∈ stateCalls e a b, c.isMatrixCall = false := by
  cases a <;> cases b <;> simp [stateCalls, Call.isMatrixCall]

theorem not_matrix_clientStateCalls (e : GLenum) (a b : Bool) :
    ∀ c ∈ clientStateCalls e a b, c.isMatrixCall = false := by
  cases a <;> cases b <;> simp [clientStateCalls, Call.isMatrixCall]

theorem not_matrix_bindCalls (n cur : Nat) :
    ∀ c ∈ bindCalls n cur, c.isMatrixCall = false := by
  unfold bindCalls
  split <;> simp [Call.isMatrixCall]

/-- The setup of a mesh logs a bind exactly when the mesh is textured and the
cache holds another texture name. -/
theorem countP_isBind_setupCalls : (setupCalls X t mods env mesh s).countP Call.isBind
    = if mesh.hasTexture = true ∧ s.boundTexture ≠ mesh.glTextureName then 1 else 0 := by
  unfold setupCalls
  cases env <;> cases mesh.hasTexture <;> cases mesh.hasVertexColors <;>
    simp [List.countP_append, List.countP_cons, Call.isBind]

/-- The setup of a mesh logs no draw. -/
theorem countP_isDraw_setupCalls : (setupCalls X t mods env mesh s).countP Call.isDraw = 0 := by
  unfold setupCalls
  cases env <;> cases mesh.hasTexture <;> cases mesh.hasVertexColors <;>
    simp [List.countP_append, List.countP_cons, Call.isDraw]

/-- The setup of a mesh logs no call on the matrix stack. -/
theorem not_matrix_setupCalls :
    ∀ c ∈ setupCalls X t mods env mesh s, c.isMatrixCall = false := by
  intro c hc
  unfold setupCalls at hc
  simp only [List.mem_append] at hc
  rcases hc with ((((((((((hc | hc) | hc) | hc) | hc) | hc) | hc) | hc) | hc) | hc) | hc) | hc
  · cases env <;> simp at hc
    subst hc; rfl
  · exact not_matrix_stateCalls _ _ _ c hc
  · exact not_matrix_stateCalls _ _ _ c hc
  · exact not_matrix_stateCalls _ _ _ c hc
  · exact not_matrix_stateCalls _ _ _ c hc
  · simp at hc
    rcases hc with hc | hc <;> subst hc <;> rfl
  · exact not_matrix_stateCalls _ _ _ c hc
  · exact not_matrix_clientStateCalls _ _ _ c hc
  · split at hc
    · simp only [List.mem_append, List.mem_singleton] at hc
      rcases hc with hc | hc
      · exact not_matrix_bindCalls _ _ c hc
      · subst hc; rfl
    · simp at hc
  · exact not_matrix_clientStateCalls _ _ _ c hc
  · split at hc
    · simp only [List.mem_singleton] at hc
      subst hc; rfl
    · simp at hc
  · simp at hc
    subst hc; rfl

theorem not_matrix_loopCalls (proc : Nat) (meshes : List TQ3TriMeshData) :
    ∀ c ∈ loopCalls X t mods env proc meshes s, c.isMatrixCall = false := by
  induction meshes generalizing s with
  | nil => simp [loopCalls]
  | cons m rest ih =>
    intro c hc
    simp only [loopCalls, List.mem_append, List.mem_singleton] at hc
    rcases hc with (hc | hc) | hc
    · exact not_matrix_setupCalls X t mods env m s c hc
    · subst hc; rfl
    · exact ih _ c hc

theorem countP_isDraw_loopCalls (proc : Nat) (meshes : List TQ3TriMeshData) :
    (loopCalls X t mods env proc meshes s).countP Call.isDraw = meshes.length := by
  induction meshes generalizing s with
  | nil => rfl
  | cons m rest ih =>
    simp [loopCalls, List.countP_append, countP_isDraw_setupCalls, ih, drawCall, Call.isDraw]

/-- Calls that are not on the matrix stack leave its depth. -/
theorem matrixDepth_glRun (b : Backend) (cs : List Call)
    (h : ∀ c ∈ cs, c.isMatrixCall = false) : (glRun b cs).matrixDepth = b.matrixDepth := by
  induction cs generalizing b with
  | nil => rfl
  | cons c rest ih =>
    have hc : (b.apply c).matrixDepth = b.matrixDepth := by
      have := h c (List.mem_cons_self _ _)
      cases c <;> first | rfl | simp [Call.isMatrixCall] at this
    have hr := ih (b.apply c) (fun d hd => h d (List.mem_cons_of_mem _ hd))
    simpa [glRun, hc] using hr

end Counting

/-! ## The log and the cache of a whole call -/

section WholeCall

variable (X : Globals) (meshList : List TQ3TriMeshData) (mods : Option RenderModifiers)
  (w : World)

theorem pushTransform_gState (t : Option TQ3Matrix4x4) :
    (pushTransform t w).gState = w.gState := by
  cases t <;> rfl

theorem popTransform_gState (t : Option TQ3Matrix4x4) :
    (popTransform t w).gState = w.gState := by
  cases t <;> rfl

theorem worldAfterMeshes_gState (t : Option TQ3Matrix4x4) :
    (worldAfterMeshes X meshList t mods w).gState
      = loopState X (modsOrDefault mods) meshList w.gState := by
  unfold worldAfterMeshes
  rw [meshLoop_gState, pushTransform_gState]

theorem Render_DrawTriMeshList_gState (t : Option TQ3Matrix4x4) :
    (Render_DrawTriMeshList X meshList t mods w).gState
      = loopState X (modsOrDefault mods) meshList w.gState := by
  rw [Render_DrawTriMeshList_eq, popTransform_gState, worldAfterMeshes_gState]

/-- The log inside a call without a transform, after the meshes `done`. -/
theorem worldAfterMeshes_log_none :
    (worldAfterMeshes X meshList none mods w).calls
      = w.calls ++ loopCalls X none (modsOrDefault mods)
          (statusBit (modsOrDefault mods) X.STATUS_BIT_REFLECTIONMAP)
          w.glDrawRangeElementsProc meshList w.gState := by
  unfold worldAfterMeshes
  rw [meshLoop_log]
  rfl

/-- The log inside a call with a transform, after the meshes `done`. -/
theorem worldAfterMeshes_log_some (tm : TQ3Matrix4x4) :
    (worldAfterMeshes X meshList (some tm) mods w).calls
      = w.calls ++ [.glPushMatrix, .glMultMatrixf tm.value] ++
          loopCalls X (some tm) (modsOrDefault mods)
            (statusBit (modsOrDefault mods) X.STATUS_BIT_REFLECTIONMAP)
            w.glDrawRangeElementsProc meshList w.gState := by
  unfold worldAfterMeshes
  rw [meshLoop_log]
  simp [pushTransform]

theorem Render_DrawTriMeshList_log_none :
    (Render_DrawTriMeshList X meshList none mods w).calls
      = w.calls ++ loopCalls X none (modsOrDefault mods)
          (statusBit (modsOrDefault mods) X.STATUS_BIT_REFLECTIONMAP)
          w.glDrawRangeElementsProc meshList w.gState := by
  rw [Render_DrawTriMeshList_eq]
  exact worldAfterMeshes_log_none X meshList mods w

theorem Render_DrawTriMeshList_log_some (tm : TQ3Matrix4x4) :
    (Render_DrawTriMeshList X meshList (some tm) mods w).calls
      = w.calls ++ [.glPushMatrix, .glMultMatrixf tm.value] ++
          loopCalls X (some tm) (modsOrDefault mods)
            (statusBit (modsOrDefault mods) X.STATUS_BIT_REFLECTIONMAP)
            w.glDrawRangeElementsProc meshList w.gState ++ [.glPopMatrix] := by
  rw [Render_DrawTriMeshList_eq]
  simp only [popTransform, emit_calls, worldAfterMeshes_log_some]

/-- Counting with any predicate that rejects the three matrix calls: a call
adds to the count what its loop adds. -/
theorem Render_DrawTriMeshList_countP (P : Call → Bool) (hpush : P .glPushMatrix = false)
    (hmult : ∀ m, P (.glMultMatrixf m) = false) (hpop : P .glPopMatrix = false)
    (t : Option TQ3Matrix4x4) :
    (Render_DrawTriMeshList X meshList t mods w).calls.countP P
      = w.calls.countP P + (loopCalls X t (modsOrDefault mods)
          (statusBit (modsOrDefault mods) X.STATUS_BIT_REFLECTIONMAP)
          w.glDrawRangeElementsProc meshList w.gState).countP P := by
  cases t with
  | none => rw [Render_DrawTriMeshList_log_none, List.countP_append]
  | some tm =>
    rw [Render_DrawTriMeshList_log_some]
    simp [List.countP_append, List.countP_cons, hpush, hmult, hpop]

end WholeCall

/-! ## Textures -/

/-- For a textured mesh the draw is reached from `worldAtBind` by the bind, the
texture-coordinate pointer, the vertex-colour block and the draw colour. -/
theorem worldAtDraw_of_textured (X : Globals) (done : List TQ3TriMeshData)
    (mesh : TQ3TriMeshData) (t : Option TQ3Matrix4x4) (mods : Option RenderModifiers)
    (w : World) (h : mesh.hasTexture = true) :
    worldAtDraw X done mesh t mods w
      = drawColor (modsOrDefault mods) mesh (vertexColorDecision mesh
          ((bindTexture mesh.glTextureName (worldAtBind X done mesh t mods w)).emit
            (.glTexCoordPointer 2 .GL_FLOAT 0
              (if statusBit (modsOrDefault mods) X.STATUS_BIT_REFLECTIONMAP
                then X.gEnvMapUVs else mesh.vertexUVs)))) := by
  simp [worldAtDraw, worldAtBind, meshSetup, textureDecision, h]

theorem worldAtBind_boundTexture (X : Globals) (done : List TQ3TriMeshData)
    (mesh : TQ3TriMeshData) (t : Option TQ3Matrix4x4) (mods : Option RenderModifiers)
    (w : World) :
    (worldAtBind X done mesh t mods w).gState.boundTexture
      = (worldAfterMeshes X done t mods w).gState.boundTexture := by
  simp [worldAtBind, EnableClientState_gState, EnableState_gState, vertexPointers_gState,
    lightingDecision_gState, cullingDecision_gState, blendDecision_gState,
    environmentMapStep_gState]

/-- C8, as stated, fails: right after `Render_InitState` the list of two meshes
textured with texture 7 logs one bind, but drawn a second time, with 7 now
cached, the same list logs no bind at all. -/
theorem C8_counterexample :
    Render_InitState 1 sampleWorldOff = some sampleWorldInit ∧
    (Render_DrawTriMeshList sampleGlobals [sampleMeshTextured, sampleMeshTextured] none none
        sampleWorldInit).calls.countP Call.isBind
      = sampleWorldInit.calls.countP Call.isBind + 1 ∧
    (Render_DrawTriMeshList sampleGlobals [sampleMeshTextured, sampleMeshTextured] none none
        (Render_DrawTriMeshList sampleGlobals [sampleMeshTextured, sampleMeshTextured] none none
          sampleWorldInit)).calls.countP Call.isBind
      = (Render_DrawTriMeshList sampleGlobals [sampleMeshTextured, sampleMeshTextured] none none
          sampleWorldInit).calls.countP Call.isBind + 0 := by
  refine ⟨by decide, by decide, by decide⟩

/-- C8, amended: a call on a list of two meshes both textured with the name
`H` (whatever their colours), from any world. It logs exactly one texture bind
if the cache holds another name than `H` before the call and none if it holds
`H`; it logs exactly two draws; and when the second mesh reaches its bind the
cache holds `H`, so that this bind logs nothing and adds one to
`batchedStateChanges`. -/
theorem C8_same_texture_twice (X : Globals) (m1 m2 : TQ3TriMeshData) (H : Nat)
    (transform : Option TQ3Matrix4x4) (mods : Option RenderModifiers) (w : World)
    (h1 : m1.hasTexture = true) (h2 : m2.hasTexture = true)
    (n1 : m1.glTextureName = H) (n2 : m2.glTextureName = H) :
    (Render_DrawTriMeshList X [m1, m2] transform mods w).calls.countP Call.isBind
      = w.calls.countP Call.isBind + (if w.gState.boundTexture = H then 0 else 1) ∧
    (Render_DrawTriMeshList X [m1, m2] transform mods w).calls.countP Call.isDraw
      = w.calls.countP Call.isDraw + 2 ∧
    (worldAtBind X [m1] m2 transform mods w).gState.boundTexture = H ∧
    (bindTexture m2.glTextureName (worldAtBind X [m1] m2 transform mods w)).calls
      = (worldAtBind X [m1] m2 transform mods w).calls ∧
    (bindTexture m2.glTextureName
        (worldAtBind X [m1] m2 transform mods w)).gRenderStats.batchedStateChanges
      = (worldAtBind X [m1] m2 transform mods w).gRenderStats.batchedStateChanges + 1 := by
  have hb : (worldAtBind X [m1] m2 transform mods w).gState.boundTexture = H := by
    rw [worldAtBind_boundTexture, worldAfterMeshes_gState]
    simp [loopState, setupState, h1, n1]
  refine ⟨?_, ?_, hb, ?_, ?_⟩
  · rw [Render_DrawTriMeshList_countP X [m1, m2] mods w Call.isBind rfl (fun _ => rfl) rfl]
    simp only [loopCalls, List.countP_append, countP_isBind_setupCalls, List.countP_cons,
      List.countP_nil, drawCall, Call.isBind]
    by_cases hw : w.gState.boundTexture = H <;> simp [setupState, h1, h2, n1, n2, hw]
  · rw [Render_DrawTriMeshList_countP X [m1, m2] mods w Call.isDraw rfl (fun _ => rfl) rfl,
      countP_isDraw_loopCalls]
    rfl
  · rw [bindTexture_calls, n2, if_pos hb, List.append_nil]
  · rw [bindTexture_batched, n2, if_pos hb]

/-- C8, amended, at a concrete input: two meshes textured with texture 7, drawn
right after initialization, when the cache holds texture 0. -/
theorem C8_same_texture_twice_witness :
    sampleMeshTextured.hasTexture = true ∧ sampleMeshTextured.glTextureName = 7 ∧
    (Render_DrawTriMeshList sampleGlobals [sampleMeshTextured, sampleMeshTextured] none none
        sampleWorldInit).calls.countP Call.isBind
      = sampleWorldInit.calls.countP Call.isBind
        + (if sampleWorldInit.gState.boundTexture = 7 then 0 else 1) ∧
    (Render_DrawTriMeshList sampleGlobals [sampleMeshTextured, sampleMeshTextured] none none
        sampleWorldInit).calls.countP Call.isDraw
      = sampleWorldInit.calls.countP Call.isDraw + 2 :=
  ⟨rfl, rfl,
    (C8_same_texture_twice sampleGlobals sampleMeshTextured sampleMeshTextured 7 none none
      sampleWorldInit rfl rfl rfl rfl).1,
    (C8_same_texture_twice sampleGlobals sampleMeshTextured sampleMeshTextured 7 none none
      sampleWorldInit rfl rfl rfl rfl).2.1⟩

/-! ## The transform -/

/-- C9: transform balance. For every mesh list, empty or not, and every
modifiers. With a transform the call logs one push and then one multiply by
the matrix, then the calls of the loop, then one pop, and the loop logs no
push, multiply or pop. Without a transform the call logs only the calls of the
loop, again with no push, multiply or pop among them. Either way the depth of
the backend's matrix stack after the call is its depth before. -/
theorem C9_transform_balance (X : Globals) (meshList : List TQ3TriMeshData)
    (mods : Option RenderModifiers) (w : World) :
    (∀ tm : TQ3Matrix4x4, ∃ body : List Call,
      (Render_DrawTriMeshList X meshList (some tm) mods w).calls
        = w.calls ++ [.glPushMatrix, .glMultMatrixf tm.value] ++ body ++ [.glPopMatrix] ∧
      ∀ c ∈ body, c.isMatrixCall = false) ∧
    (∃ body : List Call,
      (Render_DrawTriMeshList X meshList none mods w).calls = w.calls ++ body ∧
      ∀ c ∈ body, c.isMatrixCall = false) ∧
    (∀ (transform : Option TQ3Matrix4x4) (b0 : Backend),
      (glRun b0 (Render_DrawTriMeshList X meshList transform mods w).calls).matrixDepth
        = (glRun b0 w.calls).matrixDepth) := by
  refine ⟨fun tm => ⟨_, Render_DrawTriMeshList_log_some X meshList mods w tm,
      not_matrix_loopCalls X _ _ _ _ _ _⟩,
    ⟨_, Render_DrawTriMeshList_log_none X meshList mods w, not_matrix_loopCalls X _ _ _ _ _ _⟩,
    fun transform b0 => ?_⟩
  cases transform with
  | none =>
    rw [Render_DrawTriMeshList_log_none, glRun_append]
    exact matrixDepth_glRun _ _ (not_matrix_loopCalls X _ _ _ _ _ _)
  | some tm =>
    rw [Render_DrawTriMeshList_log_some, glRun_append, glRun_append, glRun_append,
      glRun_singleton]
    have hl := matrixDepth_glRun
      (glRun (glRun b0 w.calls) [.glPushMatrix, .glMultMatrixf tm.value])
      _ (not_matrix_loopCalls X (some tm) (modsOrDefault mods)
        (statusBit (modsOrDefault mods) X.STATUS_BIT_REFLECTIONMAP)
        w.gState w.glDrawRangeElementsProc meshList)
    simp only [Backend.apply, hl]
    simp [glRun, Backend.apply]

/-- C10: the texture decision. In a call on any list `done ++ mesh :: _`, from
any world, at the moment the draw command of `mesh` is issued: if the mesh has
a texture, the cached `GL_TEXTURE_2D` and `GL_TEXTURE_COORD_ARRAY` flags are
on and the cached texture name is the mesh's `glTextureName`; if it has none,
both flags are off, the log holds no more binds than when the iteration for
`mesh` began, also once the iteration is over, and the cached texture name is
the one from before the iteration. -/
theorem C10_texture_decision (X : Globals) (done : List TQ3TriMeshData)
    (mesh : TQ3TriMeshData) (transform : Option TQ3Matrix4x4) (mods : Option RenderModifiers)
    (w : World) :
    (mesh.hasTexture = true →
      (worldAtDraw X done mesh transform mods w).gState.hasState_GL_TEXTURE_2D = true ∧
      (worldAtDraw X done mesh transform mods w).gState.hasClientState_GL_TEXTURE_COORD_ARRAY
        = true ∧
      (worldAtDraw X done mesh transform mods w).gState.boundTexture = mesh.glTextureName) ∧
    (mesh.hasTexture = false →
      (worldAtDraw X done mesh transform mods w).gState.hasState_GL_TEXTURE_2D = false ∧
      (worldAtDraw X done mesh transform mods w).gState.hasClientState_GL_TEXTURE_COORD_ARRAY
        = false ∧
      (worldAtDraw X done mesh transform mods w).calls.countP Call.isBind
        = (worldAfterMeshes X done transform mods w).calls.countP Call.isBind ∧
      (worldAfterMeshes X (done ++ [mesh]) transform mods w).calls.countP Call.isBind
        = (worldAfterMeshes X done transform mods w).calls.countP Call.isBind ∧
      (worldAtDraw X done mesh transform mods w).gState.boundTexture
        = (worldAfterMeshes X done transform mods w).gState.boundTexture ∧
      (worldAfterMeshes X (done ++ [mesh]) transform mods w).gState.boundTexture
        = (worldAfterMeshes X done transform mods w).gState.boundTexture) := by
  have hlog : (worldAtDraw X done mesh transform mods w).calls
      = (worldAfterMeshes X done transform mods w).calls ++ setupCalls X transform
          (modsOrDefault mods) (statusBit (modsOrDefault mods) X.STATUS_BIT_REFLECTIONMAP)
          mesh (worldAfterMeshes X done transform mods w).gState :=
    meshSetup_log X transform _ _ mesh _
  constructor
  · intro h
    rw [worldAtDraw_gState]
    simp [setupState, h]
  · intro h
    have hc : (worldAtDraw X done mesh transform mods w).calls.countP Call.isBind
        = (worldAfterMeshes X done transform mods w).calls.countP Call.isBind := by
      rw [hlog, List.countP_append, countP_isBind_setupCalls]
      simp [h]
    have hs : (worldAtDraw X done mesh transform mods w).gState.boundTexture
        = (worldAfterMeshes X done transform mods w).gState.boundTexture := by
      rw [worldAtDraw_gState]
      simp [setupState, h]
    refine ⟨?_, ?_, hc, ?_, hs, ?_⟩
    · rw [worldAtDraw_gState]
      simp [setupState, h]
    · rw [worldAtDraw_gState]
      simp [setupState, h]
    · rw [worldAfterMeshes_snoc, meshSubmit_calls, List.countP_append, hc]
      simp [drawCall, Call.isBind]
    · rw [worldAfterMeshes_snoc, meshSubmit_gState, hs]

/-- C10 at concrete inputs: a mesh textured with texture 7 drawn after an
untextured one, and an untextured mesh drawn after the textured one. -/
theorem C10_texture_decision_witness :
    sampleMeshTextured.hasTexture = true ∧ sampleMeshOpaque.hasTexture = false ∧
    ((worldAtDraw sampleGlobals [sampleMeshOpaque] sampleMeshTextured none none
        sampleWorldInit).gState.hasState_GL_TEXTURE_2D = true ∧
      (worldAtDraw sampleGlobals [sampleMeshOpaque] sampleMeshTextured none none
        sampleWorldInit).gState.hasClientState_GL_TEXTURE_COORD_ARRAY = true ∧
      (worldAtDraw sampleGlobals [sampleMeshOpaque] sampleMeshTextured none none
        sampleWorldInit).gState.boundTexture = sampleMeshTextured.glTextureName) ∧
    ((worldAtDraw sampleGlobals [sampleMeshTextured] sampleMeshOpaque none none
        sampleWorldInit).gState.hasState_GL_TEXTURE_2D = false ∧
      (worldAtDraw sampleGlobals [sampleMeshTextured] sampleMeshOpaque none none
        sampleWorldInit).gState.hasClientState_GL_TEXTURE_COORD_ARRAY = false) :=
  ⟨rfl, rfl,
    (C10_texture_decision sampleGlobals [sampleMeshOpaque] sampleMeshTextured none none
      sampleWorldInit).1 rfl,
    ((C10_texture_decision sampleGlobals [sampleMeshTextured] sampleMeshOpaque none none
      sampleWorldInit).2 rfl).1,
    ((C10_texture_decision sampleGlobals [sampleMeshTextured] sampleMeshOpaque none none
      sampleWorldInit).2 rfl).2.1⟩

/-! ## Culling and lighting -/

theorem statusBit_default (mask : Nat) : statusBit kDefaultRenderMods mask = false := by
  simp [statusBit, kDefaultRenderMods]

/-- C11: the culling decision. In a call on any list `done ++ mesh :: _`, from
any world, at the moment the draw command of `mesh` is issued, the cached
`GL_CULL_FACE` flag is off if the modifiers in force have
`STATUS_BIT_KEEPBACKFACES` set and on otherwise, whatever it was before; it is
on when no modifiers are passed. If the cache mirrored the backend when the
call started, the backend's capability has the same value. -/
theorem C11_culling_decision (X : Globals) (done : List TQ3TriMeshData)
    (mesh : TQ3TriMeshData) (transform : Option TQ3Matrix4x4) (mods : Option RenderModifiers)
    (b0 : Backend) (w : World) :
    ((worldAtDraw X done mesh transform mods w).gState.hasState_GL_CULL_FACE
      = !((modsOrDefault mods).statusBits &&& X.STATUS_BIT_KEEPBACKFACES != 0)) ∧
    ((worldAtDraw X done mesh transform none w).gState.hasState_GL_CULL_FACE = true) ∧
    (Mirrors w.gState (glRun b0 w.calls) →
      (glRun b0 (worldAtDraw X done mesh transform mods w).calls).enabled .GL_CULL_FACE
        = !((modsOrDefault mods).statusBits &&& X.STATUS_BIT_KEEPBACKFACES != 0)) := by
  have hc : ∀ m : Option RenderModifiers,
      (worldAtDraw X done mesh transform m w).gState.hasState_GL_CULL_FACE
        = !statusBit (modsOrDefault m) X.STATUS_BIT_KEEPBACKFACES := by
    intro m; rw [worldAtDraw_gState]; rfl
  refine ⟨hc mods, ?_, fun hm => ?_⟩
  · rw [hc none]
    simp [modsOrDefault, statusBit_default]
  · have h := consistent_worldAtDraw b0 w X done mesh transform mods hm
    unfold Consistent Mirrors at h
    obtain ⟨-, -, -, -, h5, -⟩ := h
    exact h5 ▸ hc mods

/-- C11 at a concrete input: from a cache that mirrors the backend, with culling
on, a mesh drawn with modifiers that keep back faces has the backend's culling
off at its draw. -/
theorem C11_culling_decision_witness :
    Mirrors sampleWorldOn.gState (glRun sampleBackendOn sampleWorldOn.calls) ∧
    (glRun sampleBackendOn (worldAtDraw sampleGlobals [] sampleMeshOpaque none
      (some sampleModsKeepBackfaces) sampleWorldOn).calls).enabled .GL_CULL_FACE = false :=
  ⟨by decide,
    ((C11_culling_decision sampleGlobals [] sampleMeshOpaque none
      (some sampleModsKeepBackfaces) sampleBackendOn sampleWorldOn).2.2 (by decide)).trans
        (by decide)⟩

/-- C12: the lighting decision. In a call on any list `done ++ mesh :: _`, from
any world, at the moment the draw command of `mesh` is issued, the cached
`GL_LIGHTING` flag is off if the modifiers in force have
`STATUS_BIT_NULLSHADER` set and on otherwise, whatever it was before; it is on
when no modifiers are passed. If the cache mirrored the backend when the call
started, the backend's capability has the same value. -/
theorem C12_lighting_decision (X : Globals) (done : List TQ3TriMeshData)
    (mesh : TQ3TriMeshData) (transform : Option TQ3Matrix4x4) (mods : Option RenderModifiers)
    (b0 : Backend) (w : World) :
    ((worldAtDraw X done mesh transform mods w).gState.hasState_GL_LIGHTING
      = !((modsOrDefault mods).statusBits &&& X.STATUS_BIT_NULLSHADER != 0)) ∧
    ((worldAtDraw X done mesh transform none w).gState.hasState_GL_LIGHTING = true) ∧
    (Mirrors w.gState (glRun b0 w.calls) →
      (glRun b0 (worldAtDraw X done mesh transform mods w).calls).enabled .GL_LIGHTING
        = !((modsOrDefault mods).statusBits &&& X.STATUS_BIT_NULLSHADER != 0)) := by
  have hc : ∀ m : Option RenderModifiers,
      (worldAtDraw X done mesh transform m w).gState.hasState_GL_LIGHTING
        = !statusBit (modsOrDefault m) X.STATUS_BIT_NULLSHADER := by
    intro m; rw [worldAtDraw_gState]; rfl
  refine ⟨hc mods, ?_, fun hm => ?_⟩
  · rw [hc none]
    simp [modsOrDefault, statusBit_default]
  · have h := consistent_worldAtDraw b0 w X done mesh transform mods hm
    unfold Consistent Mirrors at h
    obtain ⟨-, -, -, -, -, -, -, -, -, -, h11, -⟩ := h
    exact h11 ▸ hc mods

/-- C12 at a concrete input: from a cache that mirrors the backend, with
lighting on, a mesh drawn with the null shader has the backend's lighting off
at its draw. -/
theorem C12_lighting_decision_witness :
    Mirrors sampleWorldOn.gState (glRun sampleBackendOn sampleWorldOn.calls) ∧
    (glRun sampleBackendOn (worldAtDraw sampleGlobals [] sampleMeshOpaque none
      (some sampleModsNullShader) sampleWorldOn).calls).enabled .GL_LIGHTING = false :=
  ⟨by decide,
    ((C12_lighting_decision sampleGlobals [] sampleMeshOpaque none
      (some sampleModsNullShader) sampleBackendOn sampleWorldOn).2.2 (by decide)).trans
        (by decide)⟩

/-! ## The empty list -/

/-- C13: the empty list. With no mesh, from every world and for every
modifiers: without a transform the call changes nothing at all; with a
transform it appends the push, the multiply and the pop to the log and
changes nothing else, so no draw, no enable, disable or bind and no
environment-mapping call is logged, and the cache and the three counters are
as before. -/
theorem C13_empty_list (X : Globals) (mods : Option RenderModifiers) (w : World) :
    Render_DrawTriMeshList X [] none mods w = w ∧
    ∀ tm : TQ3Matrix4x4, Render_DrawTriMeshList X [] (some tm) mods w
      = { gState := w.gState, gRenderStats := w.gRenderStats,
          glDrawRangeElementsProc := w.glDrawRangeElementsProc,
          calls := w.calls ++ [.glPushMatrix, .glMultMatrixf tm.value, .glPopMatrix] } := by
  refine ⟨rfl, fun tm => ?_⟩
  simp [Render_DrawTriMeshList, pushTransform, popTransform, meshLoop, World.emit]

/-! ## Default modifiers -/

section EnvMapCount

variable (X : Globals) (t : Option TQ3Matrix4x4) (mods : RenderModifiers)
  (mesh : TQ3TriMeshData) (s : RendererState)

@[simp] theorem countP_isEnvMap_stateCalls (e : GLenum) (a b : Bool) :
    (stateCalls e a b).countP Call.isEnvMap = 0 := by
  cases a <;> cases b <;> rfl

@[simp] theorem countP_isEnvMap_clientStateCalls (e : GLenum) (a b : Bool) :
    (clientStateCalls e a b).countP Call.isEnvMap = 0 := by
  cases a <;> cases b <;> rfl

@[simp] theorem countP_isEnvMap_bindCalls (n cur : Nat) :
    (bindCalls n cur).countP Call.isEnvMap = 0 := by
  unfold bindCalls
  split <;> rfl

/-- The setup of a mesh makes one environment-mapping call with reflection
mapping requested and none without. -/
theorem countP_isEnvMap_setupCalls (env : Bool) :
    (setupCalls X t mods env mesh s).countP Call.isEnvMap = if env then 1 else 0 := by
  unfold setupCalls
  cases env <;> cases mesh.hasTexture <;> cases mesh.hasVertexColors <;>
    simp [List.countP_append, List.countP_cons, Call.isEnvMap]

theorem countP_isEnvMap_loopCalls (proc : Nat) (meshes : List TQ3TriMeshData) :
    (loopCalls X t mods false proc meshes s).countP Call.isEnvMap = 0 := by
  induction meshes generalizing s with
  | nil => rfl
  | cons m rest ih =>
    simp [loopCalls, List.countP_append, countP_isEnvMap_setupCalls, ih, drawCall,
      Call.isEnvMap]

end EnvMapCount

/-- C14: default modifiers. For every world, mesh list and optional transform,
the call with no modifiers is the call with the explicit modifiers of status
bits 0 and diffuse colour (1, 1, 1, 1): the same world results, with its log,
cache and counters. The call then logs no environment-mapping call, and at the
draw of every mesh culling and lighting are cached on and blending is cached
on exactly when the mesh's texture has transparency or its diffuse alpha is
below `.999f`. -/
theorem C14_default_modifiers (X : Globals) (meshList : List TQ3TriMeshData)
    (transform : Option TQ3Matrix4x4) (w : World) :
    Render_DrawTriMeshList X meshList transform none w
      = Render_DrawTriMeshList X meshList transform
          (some { statusBits := 0, diffuseColor := ⟨f32_one, f32_one, f32_one, f32_one⟩ }) w ∧
    (Render_DrawTriMeshList X meshList transform none w).calls.countP Call.isEnvMap
      = w.calls.countP Call.isEnvMap ∧
    ∀ (done : List TQ3TriMeshData) (mesh : TQ3TriMeshData),
      (worldAtDraw X done mesh transform none w).gState.hasState_GL_CULL_FACE = true ∧
      (worldAtDraw X done mesh transform none w).gState.hasState_GL_LIGHTING = true ∧
      (worldAtDraw X done mesh transform none w).gState.hasState_GL_BLEND
        = (mesh.textureHasTransparency || mesh.diffuseColor.a.lt f32_999) ∧
      (worldAtDraw X done mesh transform none w).gState.hasState_GL_ALPHA_TEST
        = !(mesh.textureHasTransparency || mesh.diffuseColor.a.lt f32_999) := by
  refine ⟨rfl, ?_, fun done mesh => ?_⟩
  · rw [Render_DrawTriMeshList_countP X meshList none w Call.isEnvMap rfl (fun _ => rfl) rfl]
    have h : statusBit (modsOrDefault none) X.STATUS_BIT_REFLECTIONMAP = false :=
      statusBit_default _
    rw [h, countP_isEnvMap_loopCalls]
    rfl
  · rw [worldAtDraw_gState]
    have hd : kDefaultRenderMods.diffuseColor.a.lt f32_999 = false := f32_one_not_lt
    simp [setupState, modsOrDefault, statusBit_default, needsBlending, hd]

/-! ## Initialization and the bound texture -/

/-- C15, as stated, fails: after a textured draw has bound texture 7 in the
backend, `Render_InitState` sets the cached texture name to 0 and logs no
bind, so the backend still has 7 bound and the cache does not mirror it,
though it did before the call. -/
theorem C15_counterexample :
    Mirrors (Render_DrawTriMeshList sampleGlobals [sampleMeshTextured] none none
        sampleWorldInit).gState
      (glRun sampleBackendFresh (Render_DrawTriMeshList sampleGlobals [sampleMeshTextured]
        none none sampleWorldInit).calls) ∧
    ∃ w', Render_InitState 1 (Render_DrawTriMeshList sampleGlobals [sampleMeshTextured]
        none none sampleWorldInit) = some w' ∧
      w'.gState.boundTexture = 0 ∧
      (glRun sampleBackendFresh w'.calls).textureBinding .GL_TEXTURE_2D = 7 ∧
      ¬ Mirrors w'.gState (glRun sampleBackendFresh w'.calls) := by
  refine ⟨by decide, _, Render_InitState_eq 1 _ (by decide), rfl, by decide, by decide⟩

/-- C15, amended: from every world and every backend, with the entry point
found, `Render_InitState` returns with the cached texture name 0; it logs no
bind, so the backend has the texture bound that it had before; hence the
cached name equals the backend's bound texture exactly when the backend had
texture 0 bound before the call, as a newly created context has, and then the
cache mirrors the backend on the name as well as on the eleven flags. -/
theorem C15_init_bound_texture (procAddress : Nat) (w : World) (b0 : Backend)
    (h : procAddress ≠ 0) :
    ∃ w', Render_InitState procAddress w = some w' ∧
      w'.gState.boundTexture = 0 ∧
      w'.calls.countP Call.isBind = w.calls.countP Call.isBind ∧
      (glRun b0 w'.calls).textureBinding .GL_TEXTURE_2D
        = (glRun b0 w.calls).textureBinding .GL_TEXTURE_2D ∧
      (w'.gState.boundTexture = (glRun b0 w'.calls).textureBinding .GL_TEXTURE_2D
        ↔ (glRun b0 w.calls).textureBinding .GL_TEXTURE_2D = 0) ∧
      ((glRun b0 w.calls).textureBinding .GL_TEXTURE_2D = 0 →
        Mirrors w'.gState (glRun b0 w'.calls)) := by
  have ht : (glRun b0 (w.calls ++ initCalls)).textureBinding .GL_TEXTURE_2D
      = (glRun b0 w.calls).textureBinding .GL_TEXTURE_2D := by
    rw [glRun_append]
    rfl
  refine ⟨_, Render_InitState_eq procAddress w h, rfl, ?_, ht, ?_, fun h0 => ?_⟩
  · simp [List.countP_append, initCalls, List.countP_cons, Call.isBind]
  · show (initState.boundTexture = _ ↔ _)
    rw [ht]
    exact ⟨fun e => e.symm, fun e => e.symm⟩
  · show Mirrors initState (glRun b0 (w.calls ++ initCalls))
    have hb : initState.boundTexture
        = (glRun b0 (w.calls ++ initCalls)).textureBinding .GL_TEXTURE_2D := by
      rw [ht, h0]; rfl
    rw [glRun_append] at hb ⊢
    exact ⟨rfl, rfl, rfl, rfl, rfl, rfl, rfl, rfl, rfl, rfl, rfl, hb⟩

/-- C15, amended, at a concrete input: initialization on a new backend, with
nothing bound, leaves a cache that mirrors it. -/
theorem C15_init_bound_texture_witness :
    (1 : Nat) ≠ 0 ∧ (glRun sampleBackendFresh sampleWorldOff.calls).textureBinding
      .GL_TEXTURE_2D = 0 ∧
    ∃ w', Render_InitState 1 sampleWorldOff = some w' ∧
      Mirrors w'.gState (glRun sampleBackendFresh w'.calls) :=
  ⟨by decide, rfl,
    (C15_init_bound_texture 1 sampleWorldOff sampleBackendFresh (by decide)).imp
      fun _ hw => ⟨hw.1, hw.2.2.2.2.2 rfl⟩⟩

/-! ## One draw per mesh -/

section Geometry

variable (X : Globals) (t : Option TQ3Matrix4x4) (mods : RenderModifiers) (env : Bool)
  (mesh : TQ3TriMeshData) (s : RendererState)

@[simp] theorem filter_isGeometryCall_stateCalls (e : GLenum) (a b : Bool) :
    (stateCalls e a b).filter Call.isGeometryCall = [] := by
  cases a <;> cases b <;> rfl

@[simp] theorem filter_isGeometryCall_clientStateCalls (e : GLenum) (a b : Bool) :
    (clientStateCalls e a b).filter Call.isGeometryCall = [] := by
  cases a <;> cases b <;> rfl

@[simp] theorem filter_isGeometryCall_bindCalls (n cur : Nat) :
    (bindCalls n cur).filter Call.isGeometryCall = [] := by
  unfold bindCalls
  split <;> rfl

@[simp] theorem filter_isDraw_stateCalls (e : GLenum) (a b : Bool) :
    (stateCalls e a b).filter Call.isDraw = [] := by
  cases a <;> cases b <;> rfl

@[simp] theorem filter_isDraw_clientStateCalls (e : GLenum) (a b : Bool) :
    (clientStateCalls e a b).filter Call.isDraw = [] := by
  cases a <;> cases b <;> rfl

@[simp] theorem filter_isDraw_bindCalls (n cur : Nat) :
    (bindCalls n cur).filter Call.isDraw = [] := by
  unfold bindCalls
  split <;> rfl

/-- Of the geometry calls the setup of a mesh logs the two pointers, positions first. -/
theorem filter_isGeometryCall_setupCalls :
    (setupCalls X t mods env mesh s).filter Call.isGeometryCall
      = [.glVertexPointer 3 .GL_FLOAT 0 mesh.points,
          .glNormalPointer .GL_FLOAT 0 mesh.vertexNormals] := by
  unfold setupCalls
  cases env <;> cases mesh.hasTexture <;> cases mesh.hasVertexColors <;>
    simp [List.filter_append, List.filter_cons, Call.isGeometryCall]

theorem filter_isDraw_setupCalls :
    (setupCalls X t mods env mesh s).filter Call.isDraw = [] := by
  unfold setupCalls
  cases env <;> cases mesh.hasTexture <;> cases mesh.hasVertexColors <;>
    simp [List.filter_append, List.filter_cons, Call.isDraw]

theorem filter_isGeometryCall_loopCalls (proc : Nat) (meshes : List TQ3TriMeshData) :
    (loopCalls X t mods env proc meshes s).filter Call.isGeometryCall
      = meshes.flatMap fun m =>
          [.glVertexPointer 3 .GL_FLOAT 0 m.points,
            .glNormalPointer .GL_FLOAT 0 m.vertexNormals, drawCall proc m] := by
  induction meshes generalizing s with
  | nil => rfl
  | cons m rest ih =>
    simp [loopCalls, List.filter_append, filter_isGeometryCall_setupCalls, ih, drawCall,
      Call.isGeometryCall]

theorem filter_isDraw_loopCalls (proc : Nat) (meshes : List TQ3TriMeshData) :
    (loopCalls X t mods env proc meshes s).filter Call.isDraw
      = meshes.map (drawCall proc) := by
  induction meshes generalizing s with
  | nil => rfl
  | cons m rest ih =>
    simp [loopCalls, List.filter_append, filter_isDraw_setupCalls, ih, drawCall, Call.isDraw]

end Geometry

/-- In range, the conversion to `GLuint` keeps `numPoints - 1`. -/
theorem toGLuint_pred (n : Int) (h1 : 1 ≤ n) (h2 : n ≤ 2 ^ 31 - 1) :
    toGLuint (n - 1) = n - 1 := by
  unfold toGLuint
  apply Int.emod_eq_of_lt <;> omega

/-- In range, the 32-bit product is `3 * numTriangles`. -/
theorem toGLsizei_triple (n : Int) (h1 : 0 ≤ n) (h2 : 3 * n ≤ 2 ^ 31 - 1) :
    toGLsizei (n * 3) = 3 * n := by
  unfold toGLsizei
  rw [Int.emod_eq_of_lt] <;> omega

/-- C16, as stated, fails: for a mesh with no points the draw is logged with
the end of the vertex range 4294967295, the `GLuint` that `numPoints - 1`
converts to, and not with `numPoints - 1`, which is -1. -/
theorem C16_counterexample :
    (Render_DrawTriMeshList sampleGlobals [sampleMeshEmpty] none none
        sampleWorldInit).calls.filter Call.isDraw
      = [Call.glDrawRangeElements 1 .GL_TRIANGLES 0 4294967295 0 .GL_UNSIGNED_SHORT 100] ∧
    (Render_DrawTriMeshList sampleGlobals [sampleMeshEmpty] none none
        sampleWorldInit).calls.filter Call.isDraw
      ≠ [Call.glDrawRangeElements 1 .GL_TRIANGLES 0 (sampleMeshEmpty.numPoints - 1)
          (3 * sampleMeshEmpty.numTriangles) .GL_UNSIGNED_SHORT sampleMeshEmpty.triangles] := by
  refine ⟨by decide, by decide⟩

/-- C16, amended: one draw per mesh, in order. For every world, list, transform
and modifiers, the draws that the call logs are exactly one per entry of the
list, in the order of the list, each through the stored function pointer with
mode `GL_TRIANGLES`, vertex range from 0 to `numPoints - 1` modulo `2 ^ 32`,
index count `3 * numTriangles` as a 32-bit signed integer, type
`GL_UNSIGNED_SHORT` and the entry's own `triangles`; among the position
pointers, normal pointers and draws that the call logs, each entry's draw
comes right after the position pointer and the normal pointer of the same
entry's `points` and `vertexNormals`; and if every entry has at least one
point and counts that fit in 31 bits, the draws have vertex range
`0 .. numPoints - 1` and index count `3 * numTriangles`. -/
theorem C16_one_draw_per_mesh (X : Globals) (meshList : List TQ3TriMeshData)
    (transform : Option TQ3Matrix4x4) (mods : Option RenderModifiers) (w : World) :
    ∃ out : List Call,
      (Render_DrawTriMeshList X meshList transform mods w).calls = w.calls ++ out ∧
      out.filter Call.isDraw = meshList.map (fun m =>
        Call.glDrawRangeElements w.glDrawRangeElementsProc .GL_TRIANGLES 0
          ((m.numPoints - 1) % 2 ^ 32) ((3 * m.numTriangles + 2 ^ 31) % 2 ^ 32 - 2 ^ 31)
          .GL_UNSIGNED_SHORT m.triangles) ∧
      (out.filter Call.isDraw).length = meshList.length ∧
      out.filter Call.isGeometryCall = meshList.flatMap (fun m =>
        [Call.glVertexPointer 3 .GL_FLOAT 0 m.points,
          Call.glNormalPointer .GL_FLOAT 0 m.vertexNormals,
          Call.glDrawRangeElements w.glDrawRangeElementsProc .GL_TRIANGLES 0
            ((m.numPoints - 1) % 2 ^ 32) ((3 * m.numTriangles + 2 ^ 31) % 2 ^ 32 - 2 ^ 31)
            .GL_UNSIGNED_SHORT m.triangles]) ∧
      ((∀ m ∈ meshList, 1 ≤ m.numPoints ∧ m.numPoints ≤ 2 ^ 31 - 1 ∧
          0 ≤ m.numTriangles ∧ 3 * m.numTriangles ≤ 2 ^ 31 - 1) →
        out.filter Call.isDraw = meshList.map (fun m =>
          Call.glDrawRangeElements w.glDrawRangeElementsProc .GL_TRIANGLES 0 (m.numPoints - 1)
            (3 * m.numTriangles) .GL_UNSIGNED_SHORT m.triangles)) := by
  have hd : ∀ m : TQ3TriMeshData, drawCall w.glDrawRangeElementsProc m
      = Call.glDrawRangeElements w.glDrawRangeElementsProc .GL_TRIANGLES 0
          ((m.numPoints - 1) % 2 ^ 32) ((3 * m.numTriangles + 2 ^ 31) % 2 ^ 32 - 2 ^ 31)
          .GL_UNSIGNED_SHORT m.triangles := by
    intro m; simp [drawCall, toGLuint, toGLsizei, Int.mul_comm]
  have hr : (∀ m ∈ meshList, 1 ≤ m.numPoints ∧ m.numPoints ≤ 2 ^ 31 - 1 ∧
        0 ≤ m.numTriangles ∧ 3 * m.numTriangles ≤ 2 ^ 31 - 1) →
      meshList.map (drawCall w.glDrawRangeElementsProc) = meshList.map (fun m =>
        Call.glDrawRangeElements w.glDrawRangeElementsProc .GL_TRIANGLES 0 (m.numPoints - 1)
          (3 * m.numTriangles) .GL_UNSIGNED_SHORT m.triangles) := by
    intro h
    apply List.map_congr_left
    intro m hm
    obtain ⟨h1, h2, h3, h4⟩ := h m hm
    unfold drawCall
    rw [toGLuint_pred _ h1 h2, toGLsizei_triple _ h3 h4]
  cases transform with
  | none =>
    refine ⟨_, Render_DrawTriMeshList_log_none X meshList mods w, ?_, ?_, ?_, fun h => ?_⟩
    · rw [filter_isDraw_loopCalls]; simp only [← hd]
    · rw [filter_isDraw_loopCalls, List.length_map]
    · rw [filter_isGeometryCall_loopCalls]; simp only [← hd]
    · rw [filter_isDraw_loopCalls]; exact hr h
  | some tm =>
    refine ⟨[.glPushMatrix, .glMultMatrixf tm.value] ++
        loopCalls X (some tm) (modsOrDefault mods)
          (statusBit (modsOrDefault mods) X.STATUS_BIT_REFLECTIONMAP)
          w.glDrawRangeElementsProc meshList w.gState ++ [.glPopMatrix], ?_, ?_, ?_, ?_,
        fun h => ?_⟩
    · rw [Render_DrawTriMeshList_log_some]
      simp only [List.append_assoc]
    · simp only [List.filter_append, filter_isDraw_loopCalls, ← hd]
      simp [List.filter_cons, Call.isDraw]
    · simp [List.filter_append, filter_isDraw_loopCalls, Call.isDraw]
    · simp only [List.filter_append, filter_isGeometryCall_loopCalls, ← hd]
      simp [List.filter_cons, Call.isGeometryCall]
    · simp only [List.filter_append, filter_isDraw_loopCalls, ← hr h]
      simp [List.filter_cons, Call.isDraw]

/-- C16, amended, at a concrete input: an untextured mesh of 4 points and 2
triangles, then a textured one of 4 points and 3 triangles, both in range. -/
theorem C16_one_draw_per_mesh_witness :
    (∀ m ∈ [sampleMeshOpaque, sampleMeshTextured], 1 ≤ m.numPoints ∧
      m.numPoints ≤ 2 ^ 31 - 1 ∧ 0 ≤ m.numTriangles ∧ 3 * m.numTriangles ≤ 2 ^ 31 - 1) ∧
    ∃ out : List Call,
      (Render_DrawTriMeshList sampleGlobals [sampleMeshOpaque, sampleMeshTextured] none none
        sampleWorldInit).calls = sampleWorldInit.calls ++ out ∧
      out.filter Call.isDraw
        = [Call.glDrawRangeElements 1 .GL_TRIANGLES 0 3 6 .GL_UNSIGNED_SHORT 100,
            Call.glDrawRangeElements 1 .GL_TRIANGLES 0 3 9 .GL_UNSIGNED_SHORT 100] :=
  ⟨by decide,
    (C16_one_draw_per_mesh sampleGlobals [sampleMeshOpaque, sampleMeshTextured] none none
      sampleWorldInit).imp fun _ h => ⟨h.1, (h.2.2.2.2 (by decide)).trans (by decide)⟩⟩

/-! ## The flags that the loop never touches -/

section SetupShapes

variable (X : Globals) (t : Option TQ3Matrix4x4) (mods : RenderModifiers) (env : Bool)
  (mesh : TQ3TriMeshData) (s : RendererState)

theorem mem_stateCalls (e : GLenum) (a b : Bool) (c : Call) (h : c ∈ stateCalls e a b) :
    c = .glEnable e ∨ c = .glDisable e := by
  cases a <;> cases b <;> simp [stateCalls] at h <;> simp [h]

theorem mem_clientStateCalls (e : GLenum) (a b : Bool) (c : Call)
    (h : c ∈ clientStateCalls e a b) :
    c = .glEnableClientState e ∨ c = .glDisableClientState e := by
  cases a <;> cases b <;> simp [clientStateCalls] at h <;> simp [h]

theorem mem_bindCalls (n cur : Nat) (c : Call) (h : c ∈ bindCalls n cur) :
    c = .glBindTexture .GL_TEXTURE_2D n := by
  unfold bindCalls at h
  split at h <;> simp at h
  exact h

/-- Every call that the setup of a mesh logs has one of the shapes of `isSetupCall`. -/
theorem isSetupCall_of_mem_setupCalls :
    ∀ c ∈ setupCalls X t mods env mesh s, c.isSetupCall = true := by
  intro c hc
  unfold setupCalls at hc
  simp only [List.mem_append] at hc
  rcases hc with ((((((((((hc | hc) | hc) | hc) | hc) | hc) | hc) | hc) | hc) | hc) | hc) | hc
  · cases env <;> simp at hc
    subst hc; rfl
  · rcases mem_stateCalls _ _ _ c hc with h | h <;> subst h <;> rfl
  · rcases mem_stateCalls _ _ _ c hc with h | h <;> subst h <;> rfl
  · rcases mem_stateCalls _ _ _ c hc with h | h <;> subst h <;> rfl
  · rcases mem_stateCalls _ _ _ c hc with h | h <;> subst h <;> rfl
  · simp at hc
    rcases hc with hc | hc <;> subst hc <;> rfl
  · rcases mem_stateCalls _ _ _ c hc with h | h <;> subst h <;> rfl
  · rcases mem_clientStateCalls _ _ _ c hc with h | h <;> subst h <;> rfl
  · split at hc
    · simp only [List.mem_append, List.mem_singleton] at hc
      rcases hc with hc | hc
      · rw [mem_bindCalls _ _ c hc]; rfl
      · subst hc; rfl
    · simp at hc
  · rcases mem_clientStateCalls _ _ _ c hc with h | h <;> subst h <;> rfl
  · split at hc
    · simp only [List.mem_singleton] at hc
      subst hc; rfl
    · simp at hc
  · simp at hc
    subst hc; rfl

theorem togglesFixedFlag_of_isSetupCall (c : Call) (h : c.isSetupCall = true) :
    c.togglesFixedFlag = false := by
  cases c with
  | glEnable e => cases e <;> first | rfl | exact absurd h (by decide)
  | glDisable e => cases e <;> first | rfl | exact absurd h (by decide)
  | glEnableClientState e => cases e <;> first | rfl | exact absurd h (by decide)
  | glDisableClientState e => cases e <;> first | rfl | exact absurd h (by decide)
  | _ => rfl

theorem togglesFixedFlag_loopCalls (proc : Nat) (meshes : List TQ3TriMeshData) :
    ∀ c ∈ loopCalls X t mods env proc meshes s, c.togglesFixedFlag = false := by
  induction meshes generalizing s with
  | nil => simp [loopCalls]
  | cons m rest ih =>
    intro c hc
    simp only [loopCalls, List.mem_append, List.mem_singleton] at hc
    rcases hc with (hc | hc) | hc
    · exact togglesFixedFlag_of_isSetupCall c
        (isSetupCall_of_mem_setupCalls X t mods env m s c hc)
    · subst hc; rfl
    · exact ih _ c hc

/-- The loop keeps the four flags that it never decides. -/
theorem loopState_fixed (meshes : List TQ3TriMeshData) :
    (loopState X mods meshes s).hasClientState_GL_VERTEX_ARRAY
      = s.hasClientState_GL_VERTEX_ARRAY ∧
    (loopState X mods meshes s).hasClientState_GL_NORMAL_ARRAY
      = s.hasClientState_GL_NORMAL_ARRAY ∧
    (loopState X mods meshes s).hasState_GL_DEPTH_TEST = s.hasState_GL_DEPTH_TEST ∧
    (loopState X mods meshes s).hasState_GL_COLOR_MATERIAL = s.hasState_GL_COLOR_MATERIAL := by
  induction meshes generalizing s with
  | nil => exact ⟨rfl, rfl, rfl, rfl⟩
  | cons m rest ih => exact ih (setupState X mods m s)

/-- The loop leaves exactly one of blending and alpha test on, if it found them so. -/
theorem loopState_blend_alpha (meshes : List TQ3TriMeshData)
    (h : s.hasState_GL_BLEND = !s.hasState_GL_ALPHA_TEST) :
    (loopState X mods meshes s).hasState_GL_BLEND
      = !(loopState X mods meshes s).hasState_GL_ALPHA_TEST := by
  induction meshes generalizing s with
  | nil => exact h
  | cons m rest ih =>
    apply ih
    simp [setupState]

end SetupShapes

/-- C17: the untouched flags. For every world, mesh list, transform and
modifiers, `Render_DrawTriMeshList` appends to the log no enable or disable
command, of either kind, for `GL_VERTEX_ARRAY`, `GL_NORMAL_ARRAY`,
`GL_DEPTH_TEST` or `GL_COLOR_MATERIAL`, and the four cached flags are after
the call what they were before. So in every world reached from
`Render_InitState` by any number of calls all four are cached on. -/
theorem C17_untouched_flags (X : Globals) (meshList : List TQ3TriMeshData)
    (transform : Option TQ3Matrix4x4) (mods : Option RenderModifiers) (w : World) :
    (∃ out : List Call,
      (Render_DrawTriMeshList X meshList transform mods w).calls = w.calls ++ out ∧
      ∀ c ∈ out, c.togglesFixedFlag = false) ∧
    ((Render_DrawTriMeshList X meshList transform mods w).gState.hasClientState_GL_VERTEX_ARRAY
        = w.gState.hasClientState_GL_VERTEX_ARRAY ∧
      (Render_DrawTriMeshList X meshList transform mods w).gState.hasClientState_GL_NORMAL_ARRAY
        = w.gState.hasClientState_GL_NORMAL_ARRAY ∧
      (Render_DrawTriMeshList X meshList transform mods w).gState.hasState_GL_DEPTH_TEST
        = w.gState.hasState_GL_DEPTH_TEST ∧
      (Render_DrawTriMeshList X meshList transform mods w).gState.hasState_GL_COLOR_MATERIAL
        = w.gState.hasState_GL_COLOR_MATERIAL) ∧
    (∀ w' : World, Reachable X w' →
      w'.gState.hasClientState_GL_VERTEX_ARRAY = true ∧
      w'.gState.hasClientState_GL_NORMAL_ARRAY = true ∧
      w'.gState.hasState_GL_DEPTH_TEST = true ∧
      w'.gState.hasState_GL_COLOR_MATERIAL = true) := by
  refine ⟨?_, ?_, ?_⟩
  · cases transform with
    | none =>
      exact ⟨_, Render_DrawTriMeshList_log_none X meshList mods w,
        togglesFixedFlag_loopCalls X _ _ _ _ _ _⟩
    | some tm =>
      refine ⟨[.glPushMatrix, .glMultMatrixf tm.value] ++
          loopCalls X (some tm) (modsOrDefault mods)
            (statusBit (modsOrDefault mods) X.STATUS_BIT_REFLECTIONMAP)
            w.glDrawRangeElementsProc meshList w.gState ++ [.glPopMatrix], ?_, ?_⟩
      · rw [Render_DrawTriMeshList_log_some]
        simp only [List.append_assoc]
      · intro c hc
        simp only [List.mem_append, List.mem_cons, List.mem_singleton, List.not_mem_nil,
          or_false] at hc
        rcases hc with ((hc | hc) | hc) | hc
        · subst hc; rfl
        · subst hc; rfl
        · exact togglesFixedFlag_loopCalls X _ _ _ _ _ _ c hc
        · subst hc; rfl
  · rw [Render_DrawTriMeshList_gState]
    exact loopState_fixed X _ _ _
  · intro w' hr
    induction hr with
    | init procAddress w0 w1 h =>
      have hp : procAddress ≠ 0 := by
        intro h0
        rw [h0, Render_InitState_null] at h
        cases h
      rw [Render_InitState_eq procAddress w0 hp] at h
      cases h
      exact ⟨rfl, rfl, rfl, rfl⟩
    | draw w1 ms tr m _ ih =>
      rw [Render_DrawTriMeshList_gState]
      obtain ⟨h1, h2, h3, h4⟩ := loopState_fixed X (modsOrDefault m) w1.gState ms
      rw [h1, h2, h3, h4]
      exact ih

/-- C17 at a concrete input: the world after initialization and one textured
draw is reachable, and has the four flags cached on. -/
theorem C17_untouched_flags_witness :
    Reachable sampleGlobals
      (Render_DrawTriMeshList sampleGlobals [sampleMeshTextured] none none sampleWorldInit) ∧
    (Render_DrawTriMeshList sampleGlobals [sampleMeshTextured] none none
      sampleWorldInit).gState.hasClientState_GL_VERTEX_ARRAY = true ∧
    (Render_DrawTriMeshList sampleGlobals [sampleMeshTextured] none none
      sampleWorldInit).gState.hasClientState_GL_NORMAL_ARRAY = true ∧
    (Render_DrawTriMeshList sampleGlobals [sampleMeshTextured] none none
      sampleWorldInit).gState.hasState_GL_DEPTH_TEST = true ∧
    (Render_DrawTriMeshList sampleGlobals [sampleMeshTextured] none none
      sampleWorldInit).gState.hasState_GL_COLOR_MATERIAL = true :=
  ⟨Reachable.draw _ _ _ _ (Reachable.init 1 sampleWorldOff _ (by decide)),
    (C17_untouched_flags sampleGlobals [] none none sampleWorldInit).2.2 _
      (Reachable.draw _ _ _ _ (Reachable.init 1 sampleWorldOff _ (by decide)))⟩

/-- C18: blending and alpha test exclude each other. In the world that
`Render_InitState` returns and in every world reached from it by any number of
calls of `Render_DrawTriMeshList`, exactly one of the cached flags `GL_BLEND`
and `GL_ALPHA_TEST` is on; and at the draw command of every mesh, in a call
from any world at all, exactly one of the two is on. -/
theorem C18_blend_xor_alpha_test (X : Globals) :
    (∀ w : World, Reachable X w →
      w.gState.hasState_GL_BLEND = !w.gState.hasState_GL_ALPHA_TEST) ∧
    (∀ (done : List TQ3TriMeshData) (mesh : TQ3TriMeshData)
      (transform : Option TQ3Matrix4x4) (mods : Option RenderModifiers) (w : World),
      (worldAtDraw X done mesh transform mods w).gState.hasState_GL_BLEND
        = !(worldAtDraw X done mesh transform mods w).gState.hasState_GL_ALPHA_TEST) := by
  constructor
  · intro w hr
    induction hr with
    | init procAddress w0 w1 h =>
      have hp : procAddress ≠ 0 := by
        intro h0
        rw [h0, Render_InitState_null] at h
        cases h
      rw [Render_InitState_eq procAddress w0 hp] at h
      cases h
      rfl
    | draw w1 ms tr m _ ih =>
      rw [Render_DrawTriMeshList_gState]
      exact loopState_blend_alpha X _ _ ms ih
  · intro done mesh transform mods w
    rw [worldAtDraw_gState]
    simp [setupState]

/-- C18 at a concrete input: the world after initialization and a draw of a
mesh with diffuse alpha 0.5 is reachable, and has exactly one of the two flags
on. -/
theorem C18_blend_xor_alpha_test_witness :
    Reachable sampleGlobals
      (Render_DrawTriMeshList sampleGlobals [sampleMeshHalf] none none sampleWorldInit) ∧
    (Render_DrawTriMeshList sampleGlobals [sampleMeshHalf] none none
        sampleWorldInit).gState.hasState_GL_BLEND
      = !(Render_DrawTriMeshList sampleGlobals [sampleMeshHalf] none none
        sampleWorldInit).gState.hasState_GL_ALPHA_TEST :=
  ⟨Reachable.draw _ _ _ _ (Reachable.init 1 sampleWorldOff _ (by decide)),
    (C18_blend_xor_alpha_test sampleGlobals).1 _
      (Reachable.draw _ _ _ _ (Reachable.init 1 sampleWorldOff _ (by decide)))⟩

/-! ## Conservation of state-change requests -/

section Conservation

variable (X : Globals) (t : Option TQ3Matrix4x4) (mods : RenderModifiers) (env : Bool)
  (mesh : TQ3TriMeshData) (w : World)

theorem EnableState_avoided (e : GLenum) (p : FlagPtr) :
    (__EnableState e p w).gRenderStats.batchedStateChanges
      = w.gRenderStats.batchedStateChanges + avoided true (p.load w.gState) := by
  rw [EnableState_batched]; cases p.load w.gState <;> simp [avoided]

theorem DisableState_avoided (e : GLenum) (p : FlagPtr) :
    (__DisableState e p w).gRenderStats.batchedStateChanges
      = w.gRenderStats.batchedStateChanges + avoided false (p.load w.gState) := by
  rw [DisableState_batched]; cases p.load w.gState <;> simp [avoided]

theorem EnableClientState_avoided (e : GLenum) (p : FlagPtr) :
    (__EnableClientState e p w).gRenderStats.batchedStateChanges
      = w.gRenderStats.batchedStateChanges + avoided true (p.load w.gState) := by
  rw [EnableClientState_batched]; cases p.load w.gState <;> simp [avoided]

theorem DisableClientState_avoided (e : GLenum) (p : FlagPtr) :
    (__DisableClientState e p w).gRenderStats.batchedStateChanges
      = w.gRenderStats.batchedStateChanges + avoided false (p.load w.gState) := by
  rw [DisableClientState_batched]; cases p.load w.gState <;> simp [avoided]

theorem environmentMapStep_batched :
    (environmentMapStep t env mesh w).gRenderStats.batchedStateChanges
      = w.gRenderStats.batchedStateChanges := by
  unfold environmentMapStep; split <;> rfl

theorem blendDecision_batched : (blendDecision mods mesh w).gRenderStats.batchedStateChanges
    = w.gRenderStats.batchedStateChanges
      + (avoided (needsBlending mods mesh) w.gState.hasState_GL_BLEND
        + avoided (!needsBlending mods mesh) w.gState.hasState_GL_ALPHA_TEST) := by
  unfold blendDecision
  cases needsBlending mods mesh <;>
    simp [EnableState_avoided, DisableState_avoided, EnableState_gState, DisableState_gState,
      FlagPtr.load, FlagPtr.store, Int.add_assoc]

theorem cullingDecision_batched : (cullingDecision X mods w).gRenderStats.batchedStateChanges
    = w.gRenderStats.batchedStateChanges
      + avoided (!statusBit mods X.STATUS_BIT_KEEPBACKFACES) w.gState.hasState_GL_CULL_FACE := by
  unfold cullingDecision
  cases statusBit mods X.STATUS_BIT_KEEPBACKFACES <;>
    simp [EnableState_avoided, DisableState_avoided, FlagPtr.load]

theorem lightingDecision_batched :
    (lightingDecision X mods w).gRenderStats.batchedStateChanges
      = w.gRenderStats.batchedStateChanges
        + avoided (!statusBit mods X.STATUS_BIT_NULLSHADER) w.gState.hasState_GL_LIGHTING := by
  unfold lightingDecision
  cases statusBit mods X.STATUS_BIT_NULLSHADER <;>
    simp [EnableState_avoided, DisableState_avoided, FlagPtr.load]

theorem vertexPointers_batched : (vertexPointers mesh w).gRenderStats.batchedStateChanges
    = w.gRenderStats.batchedStateChanges := rfl

theorem textureDecision_batched :
    (textureDecision X env mesh w).gRenderStats.batchedStateChanges
      = w.gRenderStats.batchedStateChanges
        + (avoided mesh.hasTexture w.gState.hasState_GL_TEXTURE_2D
          + avoided mesh.hasTexture w.gState.hasClientState_GL_TEXTURE_COORD_ARRAY
          + (if mesh.hasTexture = true ∧ w.gState.boundTexture = mesh.glTextureName
              then 1 else 0)) := by
  unfold textureDecision
  cases mesh.hasTexture <;>
    simp [EnableState_avoided, DisableState_avoided, EnableClientState_avoided,
      DisableClientState_avoided, bindTexture_batched, EnableState_gState, DisableState_gState,
      EnableClientState_gState, FlagPtr.load, FlagPtr.store, Int.add_assoc]

theorem vertexColorDecision_batched :
    (vertexColorDecision mesh w).gRenderStats.batchedStateChanges
      = w.gRenderStats.batchedStateChanges
        + avoided mesh.hasVertexColors w.gState.hasClientState_GL_COLOR_ARRAY := by
  unfold vertexColorDecision
  cases mesh.hasVertexColors <;>
    simp [EnableClientState_avoided, DisableClientState_avoided, FlagPtr.load]

/-- What the setup of a mesh adds to `batchedStateChanges`, in full. -/
theorem meshSetup_batched : (meshSetup X t mods env mesh w).gRenderStats.batchedStateChanges
    = w.gRenderStats.batchedStateChanges + setupAvoided X mods mesh w.gState := by
  simp only [meshSetup, drawColor, emit_stats, vertexColorDecision_batched,
    textureDecision_batched, vertexPointers_batched, lightingDecision_batched,
    cullingDecision_batched, blendDecision_batched, environmentMapStep_batched,
    textureDecision_gState, vertexPointers_gState, lightingDecision_gState,
    cullingDecision_gState, blendDecision_gState, environmentMapStep_gState, setupAvoided]
  cases mesh.hasTexture <;> simp [FlagPtr.store] <;> ring

theorem stateCalls_conservation (e : GLenum) (a b : Bool) :
    (((stateCalls e a b).countP Call.isStateChange : Nat) : Int) + avoided a b = 1 := by
  cases a <;> cases b <;> rfl

theorem clientStateCalls_conservation (e : GLenum) (a b : Bool) :
    (((clientStateCalls e a b).countP Call.isStateChange : Nat) : Int) + avoided a b = 1 := by
  cases a <;> cases b <;> rfl

/-- The setup of a mesh makes seven requests, eight for a textured mesh: each is
either logged as a state change or counted as avoided. -/
theorem setupCalls_conservation (s : RendererState) :
    (((setupCalls X t mods env mesh s).countP Call.isStateChange : Nat) : Int)
      + setupAvoided X mods mesh s = if mesh.hasTexture then 8 else 7 := by
  have h1 := stateCalls_conservation .GL_BLEND (needsBlending mods mesh) s.hasState_GL_BLEND
  have h2 := stateCalls_conservation .GL_ALPHA_TEST (!needsBlending mods mesh)
    s.hasState_GL_ALPHA_TEST
  have h3 := stateCalls_conservation .GL_CULL_FACE
    (!statusBit mods X.STATUS_BIT_KEEPBACKFACES) s.hasState_GL_CULL_FACE
  have h4 := stateCalls_conservation .GL_LIGHTING
    (!statusBit mods X.STATUS_BIT_NULLSHADER) s.hasState_GL_LIGHTING
  have h5 := stateCalls_conservation .GL_TEXTURE_2D mesh.hasTexture s.hasState_GL_TEXTURE_2D
  have h6 := clientStateCalls_conservation .GL_TEXTURE_COORD_ARRAY mesh.hasTexture
    s.hasClientState_GL_TEXTURE_COORD_ARRAY
  have h7 := clientStateCalls_conservation .GL_COLOR_ARRAY mesh.hasVertexColors
    s.hasClientState_GL_COLOR_ARRAY
  unfold setupCalls setupAvoided
  generalize mesh.hasTexture = tex at *
  generalize mesh.hasVertexColors = vc at *
  have hb : (((bindCalls mesh.glTextureName s.boundTexture).countP Call.isStateChange : Nat)
      : Int) = if s.boundTexture = mesh.glTextureName then 0 else 1 := by
    unfold bindCalls
    split <;> rfl
  cases env <;> cases tex <;> cases vc <;>
    simp only [List.countP_append, List.countP_cons, List.countP_nil, Call.isStateChange,
      Nat.cast_add, hb, if_true, if_false, Bool.false_eq_true, true_and, false_and,
      Nat.cast_zero, Nat.cast_one, Nat.cast_ofNat] <;>
    omega

theorem meshSubmit_batched :
    (meshSubmit mesh w).gRenderStats.batchedStateChanges = w.gRenderStats.batchedStateChanges :=
  rfl

/-- One iteration of the loop: state changes logged plus changes avoided grow by
seven, or by eight for a textured mesh. -/
theorem iteration_conservation :
    (((meshSubmit mesh (meshSetup X t mods env mesh w)).calls.countP Call.isStateChange : Nat)
        : Int)
      + (meshSubmit mesh (meshSetup X t mods env mesh w)).gRenderStats.batchedStateChanges
    = ((w.calls.countP Call.isStateChange : Nat) : Int) + w.gRenderStats.batchedStateChanges
      + (if mesh.hasTexture then 8 else 7) := by
  have h := setupCalls_conservation X t mods env mesh w.gState
  rw [meshSubmit_batched, meshSetup_batched, meshSubmit_calls, meshSetup_log]
  simp only [List.countP_append, List.countP_cons, List.countP_nil, drawCall,
    Call.isStateChange, Nat.cast_add]
  simp
  omega

theorem meshLoop_conservation (meshes : List TQ3TriMeshData) :
    (((meshLoop X t mods env meshes w).calls.countP Call.isStateChange : Nat) : Int)
      + (meshLoop X t mods env meshes w).gRenderStats.batchedStateChanges
    = ((w.calls.countP Call.isStateChange : Nat) : Int) + w.gRenderStats.batchedStateChanges
      + 7 * meshes.length + meshes.countP (fun m => m.hasTexture) := by
  induction meshes generalizing w with
  | nil => simp [meshLoop]
  | cons m rest ih =>
    have h := iteration_conservation X t mods env m w
    rw [meshLoop, ih, h]
    cases hm : m.hasTexture <;> simp [List.countP_cons, hm] <;> ring

theorem pushTransform_conservation :
    (((pushTransform t w).calls.countP Call.isStateChange : Nat) : Int)
      = ((w.calls.countP Call.isStateChange : Nat) : Int) ∧
    (pushTransform t w).gRenderStats.batchedStateChanges
      = w.gRenderStats.batchedStateChanges := by
  cases t <;> simp [pushTransform, List.countP_append, List.countP_cons, Call.isStateChange]

theorem popTransform_conservation :
    (((popTransform t w).calls.countP Call.isStateChange : Nat) : Int)
      = ((w.calls.countP Call.isStateChange : Nat) : Int) ∧
    (popTransform t w).gRenderStats.batchedStateChanges
      = w.gRenderStats.batchedStateChanges := by
  cases t <;> simp [popTransform, List.countP_append, List.countP_cons, Call.isStateChange]

/-- With the cache already as the mesh and the modifiers decide it, the setup of
the mesh logs no state change. -/
theorem setupCalls_no_change (s : RendererState) (h : setupState X mods mesh s = s) :
    (setupCalls X t mods env mesh s).countP Call.isStateChange = 0 := by
  have e1 := congrArg RendererState.hasState_GL_BLEND h
  have e2 := congrArg RendererState.hasState_GL_ALPHA_TEST h
  have e3 := congrArg RendererState.hasState_GL_CULL_FACE h
  have e4 := congrArg RendererState.hasState_GL_LIGHTING h
  have e5 := congrArg RendererState.hasState_GL_TEXTURE_2D h
  have e6 := congrArg RendererState.hasClientState_GL_TEXTURE_COORD_ARRAY h
  have e7 := congrArg RendererState.hasClientState_GL_COLOR_ARRAY h
  have e8 := congrArg RendererState.boundTexture h
  simp only [setupState] at e1 e2 e3 e4 e5 e6 e7 e8
  unfold setupCalls
  rw [← e1, ← e2, ← e3, ← e4, ← e5, ← e6, ← e7]
  cases env <;> cases hT : mesh.hasTexture <;> cases mesh.hasVertexColors <;>
    simp [hT, stateCalls, clientStateCalls, bindCalls, List.countP_append, List.countP_cons,
      Call.isStateChange] at e8 ⊢ <;>
    exact e8.symm

end Conservation

/-- C19: conservation of state-change requests. In a call on any list, from any
world: over the iteration for one mesh, the number of logged state changes
(enable, disable, of either kind, and bind) plus `batchedStateChanges` grows by
exactly 7 if the mesh has no texture and by exactly 8 if it has one. Over the
whole call on a list of `N` meshes of which `K` are textured the sum grows by
`7 * N + K`. And a mesh whose decisions all match the cache at the start of its
iteration logs no state change. -/
theorem C19_conservation (X : Globals) (meshList : List TQ3TriMeshData)
    (transform : Option TQ3Matrix4x4) (mods : Option RenderModifiers) (w : World) :
    (∀ (done : List TQ3TriMeshData) (mesh : TQ3TriMeshData),
      (((worldAfterMeshes X (done ++ [mesh]) transform mods w).calls.countP
            Call.isStateChange : Nat) : Int)
        + (worldAfterMeshes X (done ++ [mesh]) transform mods w).gRenderStats.batchedStateChanges
      = (((worldAfterMeshes X done transform mods w).calls.countP Call.isStateChange : Nat) : Int)
        + (worldAfterMeshes X done transform mods w).gRenderStats.batchedStateChanges
        + (if mesh.hasTexture then 8 else 7)) ∧
    ((((Render_DrawTriMeshList X meshList transform mods w).calls.countP
          Call.isStateChange : Nat) : Int)
        + (Render_DrawTriMeshList X meshList transform mods w).gRenderStats.batchedStateChanges
      = ((w.calls.countP Call.isStateChange : Nat) : Int) + w.gRenderStats.batchedStateChanges
        + 7 * meshList.length + meshList.countP (fun m => m.hasTexture)) ∧
    (∀ (done : List TQ3TriMeshData) (mesh : TQ3TriMeshData),
      setupState X (modsOrDefault mods) mesh (worldAfterMeshes X done transform mods w).gState
        = (worldAfterMeshes X done transform mods w).gState →
      (worldAfterMeshes X (done ++ [mesh]) transform mods w).calls.countP Call.isStateChange
        = (worldAfterMeshes X done transform mods w).calls.countP Call.isStateChange) := by
  refine ⟨fun done mesh => ?_, ?_, fun done mesh h => ?_⟩
  · rw [worldAfterMeshes_snoc]
    exact iteration_conservation X transform _ _ mesh _
  · obtain ⟨q1, q2⟩ := popTransform_conservation transform
      (worldAfterMeshes X meshList transform mods w)
    obtain ⟨p1, p2⟩ := pushTransform_conservation transform w
    rw [Render_DrawTriMeshList_eq, q1, q2]
    unfold worldAfterMeshes
    rw [meshLoop_conservation, p1, p2]
  · rw [worldAfterMeshes_snoc, meshSubmit_calls]
    unfold worldAtDraw
    rw [meshSetup_log]
    simp only [List.countP_append, setupCalls_no_change X transform _ _ mesh _ h]
    simp [drawCall, Call.isStateChange]

/-- C19 at a concrete input: right after a textured mesh with texture 7, the
same mesh again finds the cache as it decides it, and logs no state change. -/
theorem C19_conservation_witness :
    setupState sampleGlobals (modsOrDefault none) sampleMeshTextured
        (worldAfterMeshes sampleGlobals [sampleMeshTextured] none none sampleWorldInit).gState
      = (worldAfterMeshes sampleGlobals [sampleMeshTextured] none none sampleWorldInit).gState ∧
    (worldAfterMeshes sampleGlobals ([sampleMeshTextured] ++ [sampleMeshTextured]) none none
        sampleWorldInit).calls.countP Call.isStateChange
      = (worldAfterMeshes sampleGlobals [sampleMeshTextured] none none
          sampleWorldInit).calls.countP Call.isStateChange :=
  ⟨by decide,
    (C19_conservation sampleGlobals [] none none sampleWorldInit).2.2
      [sampleMeshTextured] sampleMeshTextured (by decide)⟩

/-! ## Pomme::FourCCString -/

/-- The loop body keeps a printable byte and puts `'?'` for any other, whether
`char` is signed or not. -/
theorem replaceNonAscii_eq (charIsSigned : Bool) (byte : Nat) (h : byte < 256) :
    replaceNonAscii charIsSigned byte = printableOr byte := by
  unfold replaceNonAscii charValue printableOr
  cases charIsSigned <;> simp <;> split_ifs <;> omega

theorem printableOr_range (byte : Nat) :
    0x20 ≤ printableOr byte ∧ printableOr byte ≤ 0x7E := by
  unfold printableOr
  split_ifs with h
  · exact h
  · decide

/-- Four bytes that are not zero, followed by a zero, make a string of the four. -/
theorem stringOfCString_four (a b c d : Nat) (ha : a ≠ 0) (hb : b ≠ 0) (hc : c ≠ 0)
    (hd : d ≠ 0) : stringOfCString ([a, b, c, d] ++ [0]) = [a, b, c, d] := by
  have ha' : (a != 0) = true := by simpa using ha
  have hb' : (b != 0) = true := by simpa using hb
  have hc' : (c != 0) = true := by simpa using hc
  have hd' : (d != 0) = true := by simpa using hd
  simp only [stringOfCString, List.cons_append, List.nil_append, List.takeWhile, ha', hb', hc',
    hd']
  rfl

/-- C20: `Pomme::FourCCString` on a little-endian target. For every 32-bit code
`t`, with `char` signed or not, the result has exactly four characters; the
`i`-th is the byte of `t` at bit position `8 * (3 - i)`, the most significant
first, if that byte is from `0x20` to `0x7E`, and `'?'` (63) otherwise; so
every character of the result is printable and none is zero. -/
theorem C20_FourCCString (charIsSigned : Bool) (t : Nat) (ht : t < 2 ^ 32) :
    Pomme.FourCCString false charIsSigned t
      = [printableOr (t / 2 ^ 24 % 256), printableOr (t / 2 ^ 16 % 256),
          printableOr (t / 2 ^ 8 % 256), printableOr (t % 256)] ∧
    (Pomme.FourCCString false charIsSigned t).length = 4 ∧
    (∀ i : Fin 4, (Pomme.FourCCString false charIsSigned t).get? i.val
      = some (printableOr (t / 2 ^ (8 * (3 - i.val)) % 256))) ∧
    ∀ c ∈ Pomme.FourCCString false charIsSigned t, 0x20 ≤ c ∧ c ≤ 0x7E := by
  have h0 := printableOr_range (t / 2 ^ 24 % 256)
  have h1 := printableOr_range (t / 2 ^ 16 % 256)
  have h2 := printableOr_range (t / 2 ^ 8 % 256)
  have h3 := printableOr_range (t % 256)
  have hm : t % 2 ^ 32 = t := Nat.mod_eq_of_lt ht
  have key : Pomme.FourCCString false charIsSigned t
      = [printableOr (t / 2 ^ 24 % 256), printableOr (t / 2 ^ 16 % 256),
          printableOr (t / 2 ^ 8 % 256), printableOr (t % 256)] := by
    unfold Pomme.FourCCString storeResType stringOfCString
    simp only [hm, Bool.not_false, if_true, Bool.false_eq_true, if_false, List.reverse_cons,
      List.reverse_nil, List.nil_append, List.cons_append, List.map_cons, List.map_nil]
    rw [replaceNonAscii_eq _ _ (Nat.mod_lt _ (by decide)),
      replaceNonAscii_eq _ _ (Nat.mod_lt _ (by decide)),
      replaceNonAscii_eq _ _ (Nat.mod_lt _ (by decide)),
      replaceNonAscii_eq _ _ (Nat.mod_lt _ (by decide))]
    exact stringOfCString_four _ _ _ _ (by omega) (by omega) (by omega) (by omega)
  refine ⟨key, by rw [key]; rfl, ?_, ?_⟩
  · intro i
    rw [key]
    fin_cases i <;> simp
  · intro c hc
    rw [key] at hc
    simp only [List.mem_cons, List.mem_singleton, List.not_mem_nil, or_false] at hc
    rcases hc with hc | hc | hc | hc <;> subst hc <;> assumption

/-- C20 at a concrete input: the code `0x54455854` reads "TEXT", and the code
`0x00414200`, with a zero byte at each end, reads "?AB?". -/
theorem C20_FourCCString_witness :
    (0x54455854 < 2 ^ 32 ∧ Pomme.FourCCString false true 0x54455854 = [84, 69, 88, 84]) ∧
    (0x00414200 < 2 ^ 32 ∧ Pomme.FourCCString false true 0x00414200 = [63, 65, 66, 63]) :=
  ⟨⟨by decide, (C20_FourCCString true 0x54455854 (by decide)).1.trans (by decide)⟩,
    ⟨by decide, (C20_FourCCString true 0x00414200 (by decide)).1.trans (by decide)⟩⟩

end Nanosaur
